import Mathlib

/-!
# Drift detection and correction of the foundation deployments

A shallow embedding of `pkg/foundation/foundation.go` (package `foundation` of the
multiclusterhub operator): the image lookups, the default policy tables, the replica
policy and `ValidateDeployment`, which compares a live deployment against the desired
policy field by field and returns a corrected copy together with a `needsUpdate` flag.

Conventions of the embedding

* A Go map `map[string]V` is `GoMap V`: `none` is the nil map, `some f` a finite map.
* A Go slice `[]T` whose nil-ness is observable (`reflect.DeepEqual` tells a nil slice
  from an empty one) is `Option (List T)`: `none` is the nil slice.
* A Go pointer `*T` is `Option T`; dereferencing `none` is a run-time panic, and a
  panic of `ValidateDeployment` is the result `none`.
* `reflect.DeepEqual` on these values is Lean equality.
* `DeepCopy` is the identity on values: the embedding has no sharing to break.
-/

namespace Foundation

/-! ## Kubernetes and operator data model -/

/-- A Go `map[string]V`; `none` is the nil map. -/
abbrev GoMap (V : Type) : Type := Option (Finmap (fun _ : String => V))

/-- The finite map held by a Go map; the nil map holds no entry. -/
def GoMap.entries {V : Type} (m : GoMap V) : Finmap (fun _ : String => V) :=
  m.getD ∅

/-- The two-valued map read `v, ok := m[k]`; `none` stands for `ok == false`. -/
def GoMap.get {V : Type} (m : GoMap V) (k : String) : Option V :=
  m.entries.lookup k

/-- The one-valued map read `m[k]` on a `map[string]string`: the empty string when the
key is absent (also on the nil map). -/
def GoMap.index (m : GoMap String) (k : String) : String :=
  (m.get k).getD ""

/-- Go `append(s, x)` on a slice that may be nil. -/
def goAppend {α : Type} (s : Option (List α)) (x : α) : Option (List α) :=
  some (s.getD [] ++ [x])

/-- The elements of a slice that may be nil. -/
def elems {α : Type} (s : Option (List α)) : List α :=
  s.getD []

/-- The type `resource.Quantity`, kept as its exact amount in units of `10^-9` together
with its display format. Two quantities of the same amount may differ in format. The
method `Quantity.MilliValue` of the library, which answers in 64 bits, is not defined
here: `ValidateDeployment` takes it as a parameter. -/
structure Quantity where
  nano : Int
  Format : String
deriving DecidableEq

/-- The method `Quantity.Cmp` compared with zero: equality of amounts. -/
def Quantity.semEq (a b : Quantity) : Bool :=
  decide (a.nano = b.nano)

/-- The type `corev1.ResourceList`, a `map[ResourceName]resource.Quantity`. -/
abbrev ResourceList : Type := GoMap Quantity

/-- The method `ResourceList.Cpu`: the entry under `cpu`, or the zero quantity in
decimal SI format when there is none. -/
def ResourceList.Cpu (rl : ResourceList) : Quantity :=
  match GoMap.get rl "cpu" with
  | some val => val
  | none => { nano := 0, Format := "DecimalSI" }

/-- The type `corev1.ResourceRequirements`. -/
structure ResourceRequirements where
  Limits : ResourceList
  Requests : ResourceList
deriving DecidableEq

/-- The type `corev1.LocalObjectReference`. -/
structure LocalObjectReference where
  Name : String
deriving DecidableEq

/-- The type `corev1.Toleration`. -/
structure Toleration where
  Key : String
  Operator : String
  Value : String
  Effect : String
  TolerationSeconds : Option Int
deriving DecidableEq

/-- The type `corev1.EnvVar`; the source of a computed value is kept as the field path
it refers to. -/
structure EnvVar where
  Name : String
  Value : String
  ValueFrom : Option String
deriving DecidableEq

/-- The type `corev1.VolumeMount`. -/
structure VolumeMount where
  Name : String
  ReadOnly : Bool
  MountPath : String
  SubPath : String
deriving DecidableEq

/-- The type `corev1.KeyToPath`. -/
structure KeyToPath where
  Key : String
  Path : String
  Mode : Option Int
deriving DecidableEq

/-- The type `corev1.SecretVolumeSource`. -/
structure SecretVolumeSource where
  SecretName : String
  Items : Option (List KeyToPath)
  DefaultMode : Option Int
  Optional : Option Bool
deriving DecidableEq

/-- The type `corev1.ConfigMapVolumeSource`. -/
structure ConfigMapVolumeSource where
  Name : String
  Items : Option (List KeyToPath)
  DefaultMode : Option Int
  Optional : Option Bool
deriving DecidableEq

/-- The type `corev1.EmptyDirVolumeSource`. -/
structure EmptyDirVolumeSource where
  Medium : String
  SizeLimit : Option Quantity
deriving DecidableEq

/-- The type `corev1.Volume`, with the volume sources kept by this development. -/
structure Volume where
  Name : String
  Secret : Option SecretVolumeSource
  ConfigMap : Option ConfigMapVolumeSource
  EmptyDir : Option EmptyDirVolumeSource
deriving DecidableEq

/-- The type `corev1.Container`, with the fields read or written by the validation and
some that it leaves alone. -/
structure Container where
  Name : String
  Image : String
  Command : Option (List String)
  Args : Option (List String)
  Env : Option (List EnvVar)
  Resources : ResourceRequirements
  VolumeMounts : Option (List VolumeMount)
  ImagePullPolicy : String
deriving DecidableEq

/-- The type `corev1.PodSpec`. -/
structure PodSpec where
  Volumes : Option (List Volume)
  Containers : List Container
  NodeSelector : GoMap String
  ServiceAccountName : String
  ImagePullSecrets : Option (List LocalObjectReference)
  Tolerations : Option (List Toleration)
deriving DecidableEq

/-- The type `corev1.PodTemplateSpec`; `Labels` is the label map of its object
metadata. -/
structure PodTemplateSpec where
  Labels : GoMap String
  Spec : PodSpec
deriving DecidableEq

/-- The type `appsv1.DeploymentSpec`; `Selector` holds the match labels of the label
selector. -/
structure DeploymentSpec where
  Replicas : Option Int
  Selector : GoMap String
  Template : PodTemplateSpec
deriving DecidableEq

/-- The type `appsv1.Deployment`; `Name`, `Namespace` and `Labels` are the fields of its
object metadata. -/
structure Deployment where
  Name : String
  Namespace : String
  Labels : GoMap String
  Spec : DeploymentSpec
deriving DecidableEq

/-- Modelled from the spec: the type `operatorsv1.MultiClusterHubSpec`, declared in the
`api/v1` package, with the parts of the desired specification that the spec lists: the
availability tier, the optional image pull secret name and the node selector mapping. -/
structure MultiClusterHubSpec where
  AvailabilityConfig : String
  ImagePullSecret : String
  NodeSelector : GoMap String
deriving DecidableEq

/-- Modelled from the spec: the type `operatorsv1.MultiClusterHub`, declared in the
`api/v1` package. -/
structure MultiClusterHub where
  Spec : MultiClusterHubSpec
deriving DecidableEq

/-- Modelled from the spec: the constant `operatorsv1.HABasic`, declared in the `api/v1`
package: the availability tier `Basic`. -/
def HABasic : String := "Basic"

/-- The method `Deployment.DeepCopy`. -/
def Deployment.DeepCopy (d : Deployment) : Deployment := d

/-! ## Equality of API objects

`equality.Semantic.DeepEqual` of the apimachinery library walks two values like
`reflect.DeepEqual`, except that a nil slice or map equals an empty one and that two
quantities are equal when their amounts are. -/

/-- Element-wise comparison of two sequences of the same length. -/
def semList {α : Type} (eq : α → α → Bool) : List α → List α → Bool
  | [], [] => true
  | x :: xs, y :: ys => eq x y && semList eq xs ys
  | _, _ => false

/-- Semantic comparison of two slices: nil and empty are the same slice. -/
def semSlice {α : Type} (eq : α → α → Bool) (a b : Option (List α)) : Bool :=
  semList eq (elems a) (elems b)

/-- Semantic comparison of two pointers: both nil, or both set with equal targets. -/
def semPtr {α : Type} (eq : α → α → Bool) : Option α → Option α → Bool
  | none, none => true
  | some a, some b => eq a b
  | _, _ => false

/-- Semantic comparison of two `KeyToPath` values. -/
def KeyToPath.semEq (a b : KeyToPath) : Bool :=
  decide (a.Key = b.Key) && decide (a.Path = b.Path) && decide (a.Mode = b.Mode)

/-- Semantic comparison of two secret volume sources. -/
def SecretVolumeSource.semEq (a b : SecretVolumeSource) : Bool :=
  decide (a.SecretName = b.SecretName) && semSlice KeyToPath.semEq a.Items b.Items &&
    decide (a.DefaultMode = b.DefaultMode) && decide (a.Optional = b.Optional)

/-- Semantic comparison of two config map volume sources. -/
def ConfigMapVolumeSource.semEq (a b : ConfigMapVolumeSource) : Bool :=
  decide (a.Name = b.Name) && semSlice KeyToPath.semEq a.Items b.Items &&
    decide (a.DefaultMode = b.DefaultMode) && decide (a.Optional = b.Optional)

/-- Semantic comparison of two empty-dir volume sources. -/
def EmptyDirVolumeSource.semEq (a b : EmptyDirVolumeSource) : Bool :=
  decide (a.Medium = b.Medium) && semPtr Quantity.semEq a.SizeLimit b.SizeLimit

/-- Semantic comparison of two volumes. -/
def Volume.semEq (a b : Volume) : Bool :=
  decide (a.Name = b.Name) && semPtr SecretVolumeSource.semEq a.Secret b.Secret &&
    semPtr ConfigMapVolumeSource.semEq a.ConfigMap b.ConfigMap &&
    semPtr EmptyDirVolumeSource.semEq a.EmptyDir b.EmptyDir

/-- The call `equality.Semantic.DeepEqual` on two volume slices. -/
def SemanticDeepEqual (a b : Option (List Volume)) : Bool :=
  semSlice Volume.semEq a b

/-! ## Helpers of the `utils` package

The package `pkg/utils` is not among the sources of this development. Its helpers that
`ValidateDeployment` calls are modelled from the comparison rules and corrections that
the specification gives for them. -/

/-- Modelled from the spec: `utils.ContainsPullSecret`, which is not among the sources.
Rule of the pull secret comparator: is the named secret already present among the
current pull secrets? -/
def ContainsPullSecret (pullSecrets : Option (List LocalObjectReference))
    (ps : LocalObjectReference) : Bool :=
  decide (ps ∈ elems pullSecrets)

/-- Modelled from the spec: `utils.ContainsMap`, which is not among the sources. Rule of
the node selector comparator: the first map must be a superset containing every
key/value of the second. -/
def ContainsMap (all expected : GoMap String) : Bool :=
  decide (∀ k ∈ expected.entries.keys, all.get k = expected.get k)

/-- The merge of the label comparators: missing and mismatched keys are taken from the
expected labels, and no other entry is deleted. -/
def mergeLabels (current labels : GoMap String) : GoMap String :=
  some (labels.entries ∪ current.entries)

/-- Modelled from the spec: `utils.AddDeploymentLabels`, which is not among the sources.
Rule: every key of the expected labels is present with a matching value in the current
deployment labels. Correction: merge the missing and mismatched keys, never delete
extras. Returns the deployment after the call and whether it was changed. -/
def AddDeploymentLabels (d : Deployment) (labels : GoMap String) : Deployment × Bool :=
  if ContainsMap d.Labels labels then (d, false)
  else ({ d with Labels := mergeLabels d.Labels labels }, true)

/-- Modelled from the spec: `utils.AddPodLabels`, which is not among the sources. The
rule and correction of `AddDeploymentLabels`, applied to the labels of the nested pod
template. -/
def AddPodLabels (d : Deployment) (labels : GoMap String) : Deployment × Bool :=
  if ContainsMap d.Spec.Template.Labels labels then (d, false)
  else ({ d with Spec := { d.Spec with Template :=
          { d.Spec.Template with Labels := mergeLabels d.Spec.Template.Labels labels } } },
        true)

/-- Modelled from the spec: `utils.GetContainerArgs`, which is not among the sources:
the arguments of the container of the expected template. The spec requires a fully-built
expected template and does not say what the helper does on a template without
containers; the model takes the Go zero value there, and the theorems that speak of the
expected container or of the failure condition assume that the container exists. -/
def GetContainerArgs (dep : Deployment) : Option (List String) :=
  match dep.Spec.Template.Spec.Containers with
  | [] => none
  | container :: _ => container.Args

/-- Modelled from the spec: `utils.GetContainerEnvVars`, which is not among the sources:
the environment variables of the container of the expected template; on a template
without containers, which the spec excludes, the model takes the Go zero value. -/
def GetContainerEnvVars (dep : Deployment) : Option (List EnvVar) :=
  match dep.Spec.Template.Spec.Containers with
  | [] => none
  | container :: _ => container.Env

/-- Modelled from the spec: `utils.GetContainerVolumeMounts`, which is not among the
sources: the volume mounts of the container of the expected template; on a template
without containers, which the spec excludes, the model takes the Go zero value. -/
def GetContainerVolumeMounts (dep : Deployment) : Option (List VolumeMount) :=
  match dep.Spec.Template.Spec.Containers with
  | [] => none
  | container :: _ => container.VolumeMounts

/-- Modelled from the spec: `utils.GetContainerRequestResources`, which is not among the
sources: the resource requests of the container of the expected template; on a template
without containers, which the spec excludes, the model takes the Go zero value. -/
def GetContainerRequestResources (dep : Deployment) : ResourceList :=
  match dep.Spec.Template.Spec.Containers with
  | [] => none
  | container :: _ => container.Resources.Requests

/-! ## The package `foundation` -/

/-- ImageKey used by multicloud manager deployments. -/
def ImageKey : String := "multicloud_manager"

/-- RegistrationImageKey used by registration deployments. -/
def RegistrationImageKey : String := "registration"

/-- WorkImageKey used by work deployments. -/
def WorkImageKey : String := "work"

/-- PlacementImageKey used by placement deployments. -/
def PlacementImageKey : String := "placement"

/-- ServiceAccount used by ocm deployments. -/
def ServiceAccount : String := "ocm-foundation-sa"

/-- Image returns the image reference for multicloud-manager. -/
def Image (overrides : GoMap String) : String :=
  overrides.index ImageKey

/-- The function `RegistrationImage`. -/
def RegistrationImage (overrides : GoMap String) : String :=
  overrides.index RegistrationImageKey

/-- The function `WorkImage`. -/
def WorkImage (overrides : GoMap String) : String :=
  overrides.index WorkImageKey

/-- The function `PlacementImage`. -/
def PlacementImage (overrides : GoMap String) : String :=
  overrides.index PlacementImageKey

/-- The function `defaultLabels`. -/
def defaultLabels (app : String) : GoMap String :=
  some (Finmap.insert "app" app (Finmap.singleton "ocm-antiaffinity-selector" app))

/-- The function `selectorLabels`. -/
def selectorLabels (app : String) : GoMap String :=
  some (Finmap.singleton "app" app)

/-- The function `defaultTolerations`. -/
def defaultTolerations : Option (List Toleration) :=
  some [{ Effect := "NoSchedule", Key := "node-role.kubernetes.io/infra",
          Operator := "Exists", Value := "", TolerationSeconds := none }]

/-- The function `getReplicaCount`. -/
def getReplicaCount (mch : MultiClusterHub) : Int :=
  if mch.Spec.AvailabilityConfig = HABasic then 1 else 2

/-! ## ValidateDeployment

`ValidateDeployment` works on `found`, a deep copy of the deployment, through two
pointers into it: `pod` (the pod spec of the template) and `container` (the first
container of the pod). The embedding keeps the three as separate values, runs the
thirteen checks in the order of the source, each one a function from the value it
writes and the flag to the new value and the new flag, and puts `container` and `pod`
back into `found` at the return.

`utils.GetImagePullPolicy` is not among the sources and the specification only says
that the policy is derived from the desired specification: it is a parameter.

`Quantity.MilliValue`, called at line 171, is a method of the apimachinery library; it
answers in 64 bits and its value on amounts that are negative or out of range depends on
how the library holds the quantity. It is a parameter too, so that every theorem holds
for whatever the method computes. -/

/-- Lines 92-100: verify image pull secret. -/
def verifyImagePullSecret (m : MultiClusterHub) (pod : PodSpec) (needsUpdate : Bool) :
    PodSpec × Bool :=
  if m.Spec.ImagePullSecret ≠ "" then
    let ps : LocalObjectReference := { Name := m.Spec.ImagePullSecret }
    if !ContainsPullSecret pod.ImagePullSecrets ps then
      ({ pod with ImagePullSecrets := goAppend pod.ImagePullSecrets ps }, true)
    else (pod, needsUpdate)
  else (pod, needsUpdate)

/-- Lines 102-107: verify image repository and suffix. -/
def verifyImage (overrides : GoMap String) (container : Container) (needsUpdate : Bool) :
    Container × Bool :=
  if container.Image ≠ Image overrides then
    ({ container with Image := Image overrides }, true)
  else (container, needsUpdate)

/-- Lines 109-114: verify image pull policy. -/
def verifyImagePullPolicy (GetImagePullPolicy : MultiClusterHub → String)
    (m : MultiClusterHub) (container : Container) (needsUpdate : Bool) : Container × Bool :=
  if container.ImagePullPolicy ≠ GetImagePullPolicy m then
    ({ container with ImagePullPolicy := GetImagePullPolicy m }, true)
  else (container, needsUpdate)

/-- Lines 116-122: verify node selectors. -/
def verifyNodeSelectors (m : MultiClusterHub) (pod : PodSpec) (needsUpdate : Bool) :
    PodSpec × Bool :=
  let desiredSelectors := m.Spec.NodeSelector
  if !ContainsMap pod.NodeSelector desiredSelectors then
    ({ pod with NodeSelector := desiredSelectors }, true)
  else (pod, needsUpdate)

/-- Lines 123-129: verify replica count; `current` is the value of `*found.Spec.Replicas`. -/
def verifyReplicaCount (m : MultiClusterHub) (current : Int) (found : Deployment)
    (needsUpdate : Bool) : Deployment × Bool :=
  if current ≠ getReplicaCount m then
    let replicas := getReplicaCount m
    ({ found with Spec := { found.Spec with Replicas := some replicas } }, true)
  else (found, needsUpdate)

/-- Lines 131-135: add missing labels to deployment. -/
def addMissingLabels (expected : Deployment) (found : Deployment) (needsUpdate : Bool) :
    Deployment × Bool :=
  let r := AddDeploymentLabels found expected.Labels
  if r.2 then (r.1, true) else (r.1, needsUpdate)

/-- Lines 137-141: add missing pod labels. -/
def addMissingPodLabels (expected : Deployment) (found : Deployment) (needsUpdate : Bool) :
    Deployment × Bool :=
  let r := AddPodLabels found expected.Spec.Template.Labels
  if r.2 then (r.1, true) else (r.1, needsUpdate)

/-- Lines 143-148: container arguments. -/
def enforceArgs (expected : Deployment) (container : Container) (needsUpdate : Bool) :
    Container × Bool :=
  if ¬ (container.Args = GetContainerArgs expected) then
    let args := GetContainerArgs expected
    ({ container with Args := args }, true)
  else (container, needsUpdate)

/-- Lines 150-155: container environment variables. -/
def enforceEnv (expected : Deployment) (container : Container) (needsUpdate : Bool) :
    Container × Bool :=
  if ¬ (container.Env = GetContainerEnvVars expected) then
    let envs := GetContainerEnvVars expected
    ({ container with Env := envs }, true)
  else (container, needsUpdate)

/-- Lines 157-161: spec tolerations. -/
def enforceTolerations (pod : PodSpec) (needsUpdate : Bool) : PodSpec × Bool :=
  if ¬ (pod.Tolerations = defaultTolerations) then
    ({ pod with Tolerations := defaultTolerations }, true)
  else (pod, needsUpdate)

/-- Lines 163-168: container volume mounts. -/
def enforceVolumeMounts (expected : Deployment) (container : Container)
    (needsUpdate : Bool) : Container × Bool :=
  if ¬ (container.VolumeMounts = GetContainerVolumeMounts expected) then
    let vms := GetContainerVolumeMounts expected
    ({ container with VolumeMounts := vms }, true)
  else (container, needsUpdate)

/-- Lines 170-175: container resource requests, compared on the CPU milli-value. The
only assignment is to `Resources.Requests`; the log text of line 172 also names the
limits, which no line writes. -/
def enforceResourceRequests (MilliValue : Quantity → Int) (expected : Deployment)
    (container : Container) (needsUpdate : Bool) : Container × Bool :=
  let expectedRequestResourceList := GetContainerRequestResources expected
  if ¬ (MilliValue (ResourceList.Cpu container.Resources.Requests)
        = MilliValue (ResourceList.Cpu expectedRequestResourceList)) then
    ({ container with
        Resources := { container.Resources with Requests := expectedRequestResourceList } },
      true)
  else (container, needsUpdate)

/-- Lines 177-181: pod volumes, compared semantically. -/
def enforceVolumes (expected : Deployment) (pod : PodSpec) (needsUpdate : Bool) :
    PodSpec × Bool :=
  if !SemanticDeepEqual pod.Volumes expected.Spec.Template.Spec.Volumes then
    ({ pod with Volumes := expected.Spec.Template.Spec.Volumes }, true)
  else (pod, needsUpdate)

/-- The return of `ValidateDeployment`: the writes made through `pod` and `container`
are part of `found`. -/
def writeBack (found : Deployment) (pod : PodSpec) (container : Container)
    (others : List Container) : Deployment :=
  { found with Spec := { found.Spec with Template :=
      { found.Spec.Template with Spec := { pod with Containers := container :: others } } } }

/-- ValidateDeployment returns a deep copy of the deployment with the desired spec based
on the MultiClusterHub spec, and true if an update is needed to reconcile differences
with the current spec. The result is `none` when the source panics: on
`Containers[0]` of an empty container list and on `*found.Spec.Replicas` of a nil
pointer. -/
def ValidateDeployment (GetImagePullPolicy : MultiClusterHub → String)
    (MilliValue : Quantity → Int)
    (m : MultiClusterHub) (overrides : GoMap String) (expected dep : Deployment) :
    Option (Deployment × Bool) :=
  let found := dep.DeepCopy
  match found.Spec.Template.Spec.Containers with
  | [] => none
  | container :: others =>
    let pod := found.Spec.Template.Spec
    let needsUpdate := false
    let p1 := verifyImagePullSecret m pod needsUpdate
    let c2 := verifyImage overrides container p1.2
    let c3 := verifyImagePullPolicy GetImagePullPolicy m c2.1 c2.2
    let p4 := verifyNodeSelectors m p1.1 c3.2
    match found.Spec.Replicas with
    | none => none
    | some current =>
      let f5 := verifyReplicaCount m current found p4.2
      let f6 := addMissingLabels expected f5.1 f5.2
      let f7 := addMissingPodLabels expected f6.1 f6.2
      let c8 := enforceArgs expected c3.1 f7.2
      let c9 := enforceEnv expected c8.1 c8.2
      let p10 := enforceTolerations p4.1 c9.2
      let c11 := enforceVolumeMounts expected c9.1 p10.2
      let c12 := enforceResourceRequests MilliValue expected c11.1 c11.2
      let p13 := enforceVolumes expected p10.1 c12.2
      some (writeBack f7.1 p13.1 c12.1 others, p13.2)

/-! ## The thirteen drift checks and the corrected fields

Each check below is the condition of one `if` of `ValidateDeployment`, as a function of
the part of the deployment it reads. -/

/-- Condition of lines 93-95: a pull secret is named and is not among the pull secrets. -/
def pullSecretMissing (m : MultiClusterHub) (pod : PodSpec) : Bool :=
  decide (m.Spec.ImagePullSecret ≠ "") &&
    !ContainsPullSecret pod.ImagePullSecrets { Name := m.Spec.ImagePullSecret }

/-- Condition of line 103. -/
def imageDrift (overrides : GoMap String) (container : Container) : Bool :=
  decide (container.Image ≠ Image overrides)

/-- Condition of line 110. -/
def pullPolicyDrift (GetImagePullPolicy : MultiClusterHub → String) (m : MultiClusterHub)
    (container : Container) : Bool :=
  decide (container.ImagePullPolicy ≠ GetImagePullPolicy m)

/-- Condition of line 118. -/
def nodeSelectorDrift (m : MultiClusterHub) (pod : PodSpec) : Bool :=
  !ContainsMap pod.NodeSelector m.Spec.NodeSelector

/-- Condition of line 124, on the value of `*found.Spec.Replicas`. -/
def replicasDrift (m : MultiClusterHub) (current : Int) : Bool :=
  decide (current ≠ getReplicaCount m)

/-- Condition of line 132. -/
def labelsDrift (expected d : Deployment) : Bool :=
  (AddDeploymentLabels d expected.Labels).2

/-- Condition of line 138. -/
def podLabelsDrift (expected d : Deployment) : Bool :=
  (AddPodLabels d expected.Spec.Template.Labels).2

/-- Condition of line 143. -/
def argsDrift (expected : Deployment) (container : Container) : Bool :=
  decide (container.Args ≠ GetContainerArgs expected)

/-- Condition of line 150. -/
def envDrift (expected : Deployment) (container : Container) : Bool :=
  decide (container.Env ≠ GetContainerEnvVars expected)

/-- Condition of line 157. -/
def tolerationsDrift (pod : PodSpec) : Bool :=
  decide (pod.Tolerations ≠ defaultTolerations)

/-- Condition of line 163. -/
def volumeMountsDrift (expected : Deployment) (container : Container) : Bool :=
  decide (container.VolumeMounts ≠ GetContainerVolumeMounts expected)

/-- Condition of line 171. -/
def cpuRequestDrift (MilliValue : Quantity → Int) (expected : Deployment)
    (container : Container) : Bool :=
  decide (MilliValue (ResourceList.Cpu container.Resources.Requests)
    ≠ MilliValue (ResourceList.Cpu (GetContainerRequestResources expected)))

/-- Condition of line 177. -/
def volumesDrift (expected : Deployment) (pod : PodSpec) : Bool :=
  !SemanticDeepEqual pod.Volumes expected.Spec.Template.Spec.Volumes

/-- The disjunction of the thirteen checks, in the order of the source, on a deployment
whose first container is `container` and whose replica count is `current`. -/
def anyDrift (GetImagePullPolicy : MultiClusterHub → String)
    (MilliValue : Quantity → Int) (m : MultiClusterHub)
    (overrides : GoMap String) (expected d : Deployment) (container : Container)
    (current : Int) : Bool :=
  pullSecretMissing m d.Spec.Template.Spec || imageDrift overrides container ||
  pullPolicyDrift GetImagePullPolicy m container ||
  nodeSelectorDrift m d.Spec.Template.Spec || replicasDrift m current ||
  labelsDrift expected d || podLabelsDrift expected d || argsDrift expected container ||
  envDrift expected container || tolerationsDrift d.Spec.Template.Spec ||
  volumeMountsDrift expected container || cpuRequestDrift MilliValue expected container ||
  volumesDrift expected d.Spec.Template.Spec

/-- The first container after the six container checks. -/
def correctedContainer (GetImagePullPolicy : MultiClusterHub → String)
    (MilliValue : Quantity → Int)
    (m : MultiClusterHub) (overrides : GoMap String) (expected : Deployment)
    (container : Container) : Container :=
  { container with
    Image := Image overrides
    ImagePullPolicy := GetImagePullPolicy m
    Args := GetContainerArgs expected
    Env := GetContainerEnvVars expected
    VolumeMounts := GetContainerVolumeMounts expected
    Resources := { container.Resources with
      Requests := if cpuRequestDrift MilliValue expected container
        then GetContainerRequestResources expected else container.Resources.Requests } }

/-- The pod spec after the four pod checks, with its containers put back. -/
def correctedPod (m : MultiClusterHub) (expected : Deployment) (pod : PodSpec)
    (containers : List Container) : PodSpec :=
  { pod with
    ImagePullSecrets := if pullSecretMissing m pod
      then goAppend pod.ImagePullSecrets { Name := m.Spec.ImagePullSecret }
      else pod.ImagePullSecrets
    NodeSelector := if nodeSelectorDrift m pod then m.Spec.NodeSelector else pod.NodeSelector
    Tolerations := defaultTolerations
    Volumes := if volumesDrift expected pod
      then expected.Spec.Template.Spec.Volumes else pod.Volumes
    Containers := containers }

/-- The deployment after the thirteen checks, for a deployment whose containers are
`container :: others`. -/
def correctedDeployment (GetImagePullPolicy : MultiClusterHub → String)
    (MilliValue : Quantity → Int)
    (m : MultiClusterHub) (overrides : GoMap String) (expected d : Deployment)
    (container : Container) (others : List Container) : Deployment :=
  { d with
    Labels := (AddDeploymentLabels d expected.Labels).1.Labels
    Spec := { d.Spec with
      Replicas := some (getReplicaCount m)
      Template :=
        { Labels := (AddPodLabels d expected.Spec.Template.Labels).1.Spec.Template.Labels
          Spec := correctedPod m expected d.Spec.Template.Spec
            (correctedContainer GetImagePullPolicy MilliValue m overrides expected container
              :: others) } } }

/-! ## Concrete inputs

A live deployment that is off policy in most fields, the desired specification, overrides
and expected template it is validated against, and the deployment it converges to. -/

/-- A pull policy lookup that always answers `IfNotPresent`. -/
def exPolicy (_ : MultiClusterHub) : String := "IfNotPresent"

/-- A milli-value reading for the concrete inputs: the amount times 1000, rounded up. The
CPU amounts of the concrete inputs are zero (no request) and `100m`, which the library
method reads as 0 and 100, as this reading does; it is not the library method on negative
amounts or on amounts whose milli-value does not fit in 64 bits. -/
def exMilliValue (q : Quantity) : Int := (q.nano + 999999) / 1000000

/-- A desired specification: high availability, pull secret `quay`, nodes with `disk=ssd`. -/
def exHub : MultiClusterHub :=
  { Spec := { AvailabilityConfig := "High", ImagePullSecret := "quay",
              NodeSelector := some (Finmap.singleton "disk" "ssd") } }

/-- An overrides map with the manager image only. -/
def exOverrides : GoMap String := some (Finmap.singleton "multicloud_manager" "new:v2")

/-- The container of the expected template. -/
def exExpectedContainer : Container :=
  { Name := "ocm-controller", Image := "new:v2", Command := none,
    Args := some ["/controller", "--enable-rbac=true"],
    Env := some [{ Name := "POD_NAMESPACE", Value := "", ValueFrom := some "metadata.namespace" }],
    Resources := { Limits := none,
                   Requests := some (Finmap.singleton "cpu"
                     { nano := 100000000, Format := "DecimalSI" }) },
    VolumeMounts := some [{ Name := "certs", ReadOnly := true, MountPath := "/var/run/certs",
                            SubPath := "" }],
    ImagePullPolicy := "IfNotPresent" }

/-- The volumes of the expected template. -/
def exExpectedVolumes : Option (List Volume) :=
  some [{ Name := "certs",
          Secret := some { SecretName := "ocm-certs", Items := none, DefaultMode := none,
                           Optional := none },
          ConfigMap := none, EmptyDir := none }]

/-- The expected template. -/
def exExpected : Deployment :=
  { Name := "ocm-controller", Namespace := "open-cluster-management",
    Labels := defaultLabels "ocm-controller",
    Spec := { Replicas := some 2, Selector := selectorLabels "ocm-controller",
              Template := { Labels := defaultLabels "ocm-controller",
                            Spec := { Volumes := exExpectedVolumes,
                                      Containers := [exExpectedContainer],
                                      NodeSelector := some (Finmap.singleton "disk" "ssd"),
                                      ServiceAccountName := "ocm-foundation-sa",
                                      ImagePullSecrets := some [{ Name := "quay" }],
                                      Tolerations := defaultTolerations } } } }

/-- The first container of the live deployment: old image, an extra environment
variable. -/
def exContainer : Container :=
  { Name := "ocm-controller", Image := "old:v1", Command := none,
    Args := some ["/controller"],
    Env := some [{ Name := "POD_NAMESPACE", Value := "", ValueFrom := some "metadata.namespace" },
                 { Name := "DEBUG", Value := "1", ValueFrom := none }],
    Resources := { Limits := some (Finmap.singleton "memory"
                     { nano := 512000000000, Format := "BinarySI" }),
                   Requests := none },
    VolumeMounts := none,
    ImagePullPolicy := "Always" }

/-- A second container of the live deployment, which the validation does not manage. -/
def exSidecar : Container :=
  { Name := "proxy", Image := "proxy:v3", Command := none, Args := none, Env := none,
    Resources := { Limits := none, Requests := none }, VolumeMounts := none,
    ImagePullPolicy := "Always" }

/-- The live deployment: three replicas, a label `foo=bar` and a node selector `zone=a`
added from outside, a pull secret `internal`. -/
def exDeployment : Deployment :=
  { Name := "ocm-controller", Namespace := "open-cluster-management",
    Labels := some (Finmap.insert "foo" "bar" (Finmap.singleton "app" "stale")),
    Spec := { Replicas := some 3, Selector := selectorLabels "ocm-controller",
              Template := { Labels := none,
                            Spec := { Volumes := none,
                                      Containers := [exContainer, exSidecar],
                                      NodeSelector := some (Finmap.singleton "zone" "a"),
                                      ServiceAccountName := "ocm-foundation-sa",
                                      ImagePullSecrets := some [{ Name := "internal" }],
                                      Tolerations := none } } } }

/-- The first container of the converged deployment. -/
def exConvergedContainer : Container :=
  { exExpectedContainer with
    Resources := { Limits := some (Finmap.singleton "memory"
                     { nano := 512000000000, Format := "BinarySI" }),
                   Requests := exExpectedContainer.Resources.Requests } }

/-- The deployment that `exDeployment` converges to. -/
def exConverged : Deployment :=
  { Name := "ocm-controller", Namespace := "open-cluster-management",
    Labels := some (Finmap.insert "app" "ocm-controller"
      (Finmap.insert "ocm-antiaffinity-selector" "ocm-controller"
        (Finmap.singleton "foo" "bar"))),
    Spec := { Replicas := some 2, Selector := selectorLabels "ocm-controller",
              Template := { Labels := defaultLabels "ocm-controller",
                            Spec := { Volumes := exExpectedVolumes,
                                      Containers := [exConvergedContainer, exSidecar],
                                      NodeSelector := some (Finmap.singleton "disk" "ssd"),
                                      ServiceAccountName := "ocm-foundation-sa",
                                      ImagePullSecrets :=
                                        some [{ Name := "internal" }, { Name := "quay" }],
                                      Tolerations := defaultTolerations } } } }

/-- The live deployment without a replica count: `Spec.Replicas` is the nil pointer. -/
def exNoReplicas : Deployment :=
  { exDeployment with Spec := { exDeployment.Spec with Replicas := none } }

/-- The first container of the converged deployment with a memory request next to its
CPU request; the expected template requests CPU only. -/
def exMemoryContainer : Container :=
  { exConvergedContainer with
    Resources := { Limits := exConvergedContainer.Resources.Limits,
                   Requests := some (Finmap.insert "cpu"
                     { nano := 100000000, Format := "DecimalSI" }
                     (Finmap.singleton "memory"
                       { nano := 256000000000, Format := "BinarySI" })) } }

/-- The converged deployment with the memory request added to its first container. -/
def exMemoryDeployment : Deployment :=
  { exConverged with Spec := { exConverged.Spec with Template :=
      { exConverged.Spec.Template with Spec :=
          { exConverged.Spec.Template.Spec with
            Containers := [exMemoryContainer, exSidecar] } } } }

/-- An overrides map that also carries the registration, work and placement images. -/
def exOverridesAll : GoMap String :=
  some (Finmap.insert "registration" "registration:v7"
    (Finmap.insert "work" "work:v7"
      (Finmap.insert "placement" "placement:v7"
        (Finmap.singleton "multicloud_manager" "new:v2"))))

/-! ## The checks as state transformers

The thirteen blocks of `ValidateDeployment` read and write the local variables `found`,
`pod`, `container` and `needsUpdate`. Each block is a step on that state; the block of
lines 123-129 dereferences `found.Spec.Replicas` and panics on the nil pointer. -/

/-- The local variables of `ValidateDeployment` after line 90. -/
structure ValidationState where
  found : Deployment
  pod : PodSpec
  container : Container
  needsUpdate : Bool
deriving DecidableEq

/-- The thirteen blocks of `ValidateDeployment`, named in the order of the source. -/
inductive Check where
  | imagePullSecret
  | image
  | imagePullPolicy
  | nodeSelectors
  | replicaCount
  | labels
  | podLabels
  | args
  | env
  | tolerations
  | volumeMounts
  | resourceRequests
  | volumes
deriving DecidableEq

/-- One block of `ValidateDeployment` run on the local variables; `none` is a panic. -/
def Check.run (GetImagePullPolicy : MultiClusterHub → String)
    (MilliValue : Quantity → Int) (m : MultiClusterHub)
    (overrides : GoMap String) (expected : Deployment) :
    Check → ValidationState → Option ValidationState
  | .imagePullSecret, s =>
    let r := verifyImagePullSecret m s.pod s.needsUpdate
    some { s with pod := r.1, needsUpdate := r.2 }
  | .image, s =>
    let r := verifyImage overrides s.container s.needsUpdate
    some { s with container := r.1, needsUpdate := r.2 }
  | .imagePullPolicy, s =>
    let r := verifyImagePullPolicy GetImagePullPolicy m s.container s.needsUpdate
    some { s with container := r.1, needsUpdate := r.2 }
  | .nodeSelectors, s =>
    let r := verifyNodeSelectors m s.pod s.needsUpdate
    some { s with pod := r.1, needsUpdate := r.2 }
  | .replicaCount, s =>
    match s.found.Spec.Replicas with
    | none => none
    | some current =>
      let r := verifyReplicaCount m current s.found s.needsUpdate
      some { s with found := r.1, needsUpdate := r.2 }
  | .labels, s =>
    let r := addMissingLabels expected s.found s.needsUpdate
    some { s with found := r.1, needsUpdate := r.2 }
  | .podLabels, s =>
    let r := addMissingPodLabels expected s.found s.needsUpdate
    some { s with found := r.1, needsUpdate := r.2 }
  | .args, s =>
    let r := enforceArgs expected s.container s.needsUpdate
    some { s with container := r.1, needsUpdate := r.2 }
  | .env, s =>
    let r := enforceEnv expected s.container s.needsUpdate
    some { s with container := r.1, needsUpdate := r.2 }
  | .tolerations, s =>
    let r := enforceTolerations s.pod s.needsUpdate
    some { s with pod := r.1, needsUpdate := r.2 }
  | .volumeMounts, s =>
    let r := enforceVolumeMounts expected s.container s.needsUpdate
    some { s with container := r.1, needsUpdate := r.2 }
  | .resourceRequests, s =>
    let r := enforceResourceRequests MilliValue expected s.container s.needsUpdate
    some { s with container := r.1, needsUpdate := r.2 }
  | .volumes, s =>
    let r := enforceVolumes expected s.pod s.needsUpdate
    some { s with pod := r.1, needsUpdate := r.2 }

/-- A sequence of blocks run one after the other. -/
def runChecks (GetImagePullPolicy : MultiClusterHub → String)
    (MilliValue : Quantity → Int) (m : MultiClusterHub)
    (overrides : GoMap String) (expected : Deployment) :
    List Check → ValidationState → Option ValidationState
  | [], s => some s
  | c :: cs, s =>
    (c.run GetImagePullPolicy MilliValue m overrides expected s).bind
      (runChecks GetImagePullPolicy MilliValue m overrides expected cs)

/-- The order in which `ValidateDeployment` runs its blocks. -/
def sourceOrder : List Check :=
  [.imagePullSecret, .image, .imagePullPolicy, .nodeSelectors, .replicaCount, .labels,
   .podLabels, .args, .env, .tolerations, .volumeMounts, .resourceRequests, .volumes]

/-- The local variables at line 90, for a deployment whose first container is
`container`. -/
def initialState (dep : Deployment) (container : Container) : ValidationState :=
  { found := dep.DeepCopy, pod := dep.DeepCopy.Spec.Template.Spec, container := container,
    needsUpdate := false }

/-- The values returned at line 183, read from the local variables. -/
def returned (s : ValidationState) (others : List Container) : Deployment × Bool :=
  (writeBack s.found s.pod s.container others, s.needsUpdate)

/-! ## Each check in closed form -/

theorem verifyImagePullSecret_eq (m : MultiClusterHub) (pod : PodSpec) (b : Bool) :
    verifyImagePullSecret m pod b =
      ({ pod with ImagePullSecrets := if pullSecretMissing m pod
            then goAppend pod.ImagePullSecrets { Name := m.Spec.ImagePullSecret }
            else pod.ImagePullSecrets },
        b || pullSecretMissing m pod) := by
  unfold verifyImagePullSecret pullSecretMissing
  split_ifs <;> simp_all

theorem verifyImage_eq (overrides : GoMap String) (c : Container) (b : Bool) :
    verifyImage overrides c b =
      ({ c with Image := Image overrides }, b || imageDrift overrides c) := by
  unfold verifyImage imageDrift
  split_ifs with h <;> cases c <;> simp_all

theorem verifyImagePullPolicy_eq (gp : MultiClusterHub → String) (m : MultiClusterHub)
    (c : Container) (b : Bool) :
    verifyImagePullPolicy gp m c b =
      ({ c with ImagePullPolicy := gp m }, b || pullPolicyDrift gp m c) := by
  unfold verifyImagePullPolicy pullPolicyDrift
  split_ifs with h <;> cases c <;> simp_all

theorem verifyNodeSelectors_eq (m : MultiClusterHub) (pod : PodSpec) (b : Bool) :
    verifyNodeSelectors m pod b =
      ({ pod with NodeSelector :=
            if nodeSelectorDrift m pod then m.Spec.NodeSelector else pod.NodeSelector },
        b || nodeSelectorDrift m pod) := by
  unfold verifyNodeSelectors nodeSelectorDrift
  split_ifs <;> simp_all

theorem verifyReplicaCount_eq (m : MultiClusterHub) (r : Int) (d : Deployment) (b : Bool)
    (hr : d.Spec.Replicas = some r) :
    verifyReplicaCount m r d b =
      ({ d with Spec := { d.Spec with Replicas := some (getReplicaCount m) } },
        b || replicasDrift m r) := by
  unfold verifyReplicaCount replicasDrift
  split_ifs with h
  · simp [h]
  · simp only [not_not] at h
    obtain ⟨n, ns, l, sp⟩ := d
    obtain ⟨rep, sel, t⟩ := sp
    simp_all

theorem addMissingLabels_eq (e d : Deployment) (b : Bool) :
    addMissingLabels e d b =
      ({ d with Labels := (AddDeploymentLabels d e.Labels).1.Labels },
        b || labelsDrift e d) := by
  unfold addMissingLabels labelsDrift AddDeploymentLabels
  split_ifs <;> simp_all

theorem addMissingPodLabels_eq (e d : Deployment) (b : Bool) :
    addMissingPodLabels e d b =
      ({ d with Spec := { d.Spec with Template := { d.Spec.Template with
            Labels := (AddPodLabels d e.Spec.Template.Labels).1.Spec.Template.Labels } } },
        b || podLabelsDrift e d) := by
  unfold addMissingPodLabels podLabelsDrift AddPodLabels
  split_ifs <;> simp_all

theorem enforceArgs_eq (e : Deployment) (c : Container) (b : Bool) :
    enforceArgs e c b = ({ c with Args := GetContainerArgs e }, b || argsDrift e c) := by
  unfold enforceArgs argsDrift
  split_ifs with h <;> cases c <;> simp_all

theorem enforceEnv_eq (e : Deployment) (c : Container) (b : Bool) :
    enforceEnv e c b = ({ c with Env := GetContainerEnvVars e }, b || envDrift e c) := by
  unfold enforceEnv envDrift
  split_ifs with h <;> cases c <;> simp_all

theorem enforceTolerations_eq (pod : PodSpec) (b : Bool) :
    enforceTolerations pod b =
      ({ pod with Tolerations := defaultTolerations }, b || tolerationsDrift pod) := by
  unfold enforceTolerations tolerationsDrift
  split_ifs with h <;> cases pod <;> simp_all

theorem enforceVolumeMounts_eq (e : Deployment) (c : Container) (b : Bool) :
    enforceVolumeMounts e c b =
      ({ c with VolumeMounts := GetContainerVolumeMounts e },
        b || volumeMountsDrift e c) := by
  unfold enforceVolumeMounts volumeMountsDrift
  split_ifs with h <;> cases c <;> simp_all

theorem enforceResourceRequests_eq (mv : Quantity → Int) (e : Deployment) (c : Container) (b : Bool) :
    enforceResourceRequests mv e c b =
      ({ c with Resources := { c.Resources with
            Requests := if cpuRequestDrift mv e c
              then GetContainerRequestResources e else c.Resources.Requests } },
        b || cpuRequestDrift mv e c) := by
  unfold enforceResourceRequests cpuRequestDrift
  split_ifs <;> simp_all

theorem enforceVolumes_eq (e : Deployment) (pod : PodSpec) (b : Bool) :
    enforceVolumes e pod b =
      ({ pod with Volumes := if volumesDrift e pod
            then e.Spec.Template.Spec.Volumes else pod.Volumes },
        b || volumesDrift e pod) := by
  unfold enforceVolumes volumesDrift
  split_ifs <;> simp_all

theorem AddDeploymentLabels_labels (d : Deployment) (l : GoMap String) :
    (AddDeploymentLabels d l).1.Labels =
      if ContainsMap d.Labels l then d.Labels else mergeLabels d.Labels l := by
  unfold AddDeploymentLabels
  split_ifs <;> rfl

theorem AddDeploymentLabels_changed (d : Deployment) (l : GoMap String) :
    (AddDeploymentLabels d l).2 = !ContainsMap d.Labels l := by
  unfold AddDeploymentLabels
  split_ifs <;> simp_all

theorem AddPodLabels_labels (d : Deployment) (l : GoMap String) :
    (AddPodLabels d l).1.Spec.Template.Labels =
      if ContainsMap d.Spec.Template.Labels l then d.Spec.Template.Labels
      else mergeLabels d.Spec.Template.Labels l := by
  unfold AddPodLabels
  split_ifs <;> rfl

theorem AddPodLabels_changed (d : Deployment) (l : GoMap String) :
    (AddPodLabels d l).2 = !ContainsMap d.Spec.Template.Labels l := by
  unfold AddPodLabels
  split_ifs <;> simp_all

/-- On a deployment with a first container and a replica count, `ValidateDeployment`
returns the corrected deployment and the disjunction of the thirteen checks on the
current deployment. -/
theorem ValidateDeployment_eq (gp : MultiClusterHub → String)
    (mv : Quantity → Int) (m : MultiClusterHub)
    (o : GoMap String) (e d : Deployment) (c : Container) (cs : List Container) (r : Int)
    (hc : d.Spec.Template.Spec.Containers = c :: cs) (hr : d.Spec.Replicas = some r) :
    ValidateDeployment gp mv m o e d =
      some (correctedDeployment gp mv m o e d c cs, anyDrift gp mv m o e d c r) := by
  unfold ValidateDeployment
  simp only [Deployment.DeepCopy, hc, hr]
  rw [verifyReplicaCount_eq m r d _ hr]
  simp only [verifyImagePullSecret_eq, verifyImage_eq, verifyImagePullPolicy_eq,
    verifyNodeSelectors_eq, addMissingLabels_eq, addMissingPodLabels_eq, enforceArgs_eq,
    enforceEnv_eq, enforceTolerations_eq, enforceVolumeMounts_eq,
    enforceResourceRequests_eq, enforceVolumes_eq, writeBack, correctedDeployment,
    correctedPod, correctedContainer, anyDrift, Bool.false_or,
    AddDeploymentLabels_labels, AddPodLabels_labels, labelsDrift, podLabelsDrift,
    AddDeploymentLabels_changed, AddPodLabels_changed, pullSecretMissing,
    nodeSelectorDrift, tolerationsDrift, volumesDrift, cpuRequestDrift, imageDrift,
    pullPolicyDrift, argsDrift, envDrift, volumeMountsDrift]

/-! ## Facts about the comparison rules -/

theorem ContainsMap_iff (all expected : GoMap String) :
    ContainsMap all expected = true ↔
      ∀ k v, expected.get k = some v → all.get k = some v := by
  unfold ContainsMap GoMap.get
  rw [decide_eq_true_iff]
  constructor
  · intro h k v hk
    have hmem : k ∈ expected.entries.keys :=
      Finmap.mem_keys.mpr (Finmap.mem_of_lookup_eq_some hk)
    rw [h k hmem, hk]
  · intro h k hk
    obtain ⟨v, hv⟩ := Finmap.mem_iff.mp (Finmap.mem_keys.mp hk)
    rw [hv, h k v hv]

theorem ContainsMap_self (a : GoMap String) : ContainsMap a a = true :=
  (ContainsMap_iff a a).mpr (fun _ _ h => h)

theorem mergeLabels_get_expected (current labels : GoMap String) (k v : String)
    (h : labels.get k = some v) : (mergeLabels current labels).get k = some v := by
  unfold GoMap.get at h
  show Finmap.lookup k (labels.entries ∪ current.entries) = some v
  rw [Finmap.lookup_union_left (Finmap.mem_of_lookup_eq_some h)]
  exact h

theorem mergeLabels_get_other (current labels : GoMap String) (k : String)
    (h : labels.get k = none) : (mergeLabels current labels).get k = current.get k := by
  unfold GoMap.get at h
  show Finmap.lookup k (labels.entries ∪ current.entries) = Finmap.lookup k current.entries
  exact Finmap.lookup_union_right (Finmap.lookup_eq_none.mp h)

theorem ContainsMap_mergeLabels (current labels : GoMap String) :
    ContainsMap (mergeLabels current labels) labels = true :=
  (ContainsMap_iff _ _).mpr (fun k v h => mergeLabels_get_expected current labels k v h)

theorem semList_refl {α : Type} (eq : α → α → Bool) (h : ∀ a, eq a a = true) :
    ∀ l : List α, semList eq l l = true
  | [] => rfl
  | x :: xs => by simp [semList, h x, semList_refl eq h xs]

theorem semPtr_refl {α : Type} (eq : α → α → Bool) (h : ∀ a, eq a a = true) :
    ∀ p : Option α, semPtr eq p p = true
  | none => rfl
  | some a => by simp [semPtr, h a]

theorem keyToPath_semEq_refl (a : KeyToPath) : KeyToPath.semEq a a = true := by
  simp [KeyToPath.semEq]

theorem volume_semEq_refl (a : Volume) : Volume.semEq a a = true := by
  have hq : ∀ q : Quantity, Quantity.semEq q q = true := fun q => by simp [Quantity.semEq]
  have hs : ∀ x : SecretVolumeSource, SecretVolumeSource.semEq x x = true := fun x => by
    simp [SecretVolumeSource.semEq, semSlice, semList_refl _ keyToPath_semEq_refl]
  have hm : ∀ x : ConfigMapVolumeSource, ConfigMapVolumeSource.semEq x x = true := fun x => by
    simp [ConfigMapVolumeSource.semEq, semSlice, semList_refl _ keyToPath_semEq_refl]
  have he : ∀ x : EmptyDirVolumeSource, EmptyDirVolumeSource.semEq x x = true := fun x => by
    simp [EmptyDirVolumeSource.semEq, semPtr_refl _ hq]
  simp [Volume.semEq, semPtr_refl _ hs, semPtr_refl _ hm, semPtr_refl _ he]

theorem SemanticDeepEqual_refl (a : Option (List Volume)) : SemanticDeepEqual a a = true :=
  semList_refl _ volume_semEq_refl _

/-! ## The corrected deployment is on policy -/

theorem pullSecretMissing_corrected (m : MultiClusterHub) (e : Deployment) (pod : PodSpec)
    (l : List Container) : pullSecretMissing m (correctedPod m e pod l) = false := by
  unfold correctedPod
  by_cases h : pullSecretMissing m pod = true
  · simp only [h, if_true]
    simp [pullSecretMissing, ContainsPullSecret, goAppend, elems]
  · simp only [h]
    simpa using h

theorem nodeSelectorDrift_corrected (m : MultiClusterHub) (e : Deployment) (pod : PodSpec)
    (l : List Container) : nodeSelectorDrift m (correctedPod m e pod l) = false := by
  unfold correctedPod
  by_cases h : nodeSelectorDrift m pod = true
  · simp only [h, if_true]
    simp [nodeSelectorDrift, ContainsMap_self]
  · simp only [h]
    simpa using h

theorem tolerationsDrift_corrected (m : MultiClusterHub) (e : Deployment) (pod : PodSpec)
    (l : List Container) : tolerationsDrift (correctedPod m e pod l) = false := by
  simp [tolerationsDrift, correctedPod]

theorem volumesDrift_corrected (m : MultiClusterHub) (e : Deployment) (pod : PodSpec)
    (l : List Container) : volumesDrift e (correctedPod m e pod l) = false := by
  unfold correctedPod
  by_cases h : volumesDrift e pod = true
  · simp only [h, if_true]
    simp [volumesDrift, SemanticDeepEqual_refl]
  · simp only [h]
    simpa using h

theorem cpuRequestDrift_corrected (gp : MultiClusterHub → String)
    (mv : Quantity → Int) (m : MultiClusterHub)
    (o : GoMap String) (e : Deployment) (c : Container) :
    cpuRequestDrift mv e (correctedContainer gp mv m o e c) = false := by
  unfold correctedContainer
  by_cases h : cpuRequestDrift mv e c = true
  · simp only [h, if_true]
    simp [cpuRequestDrift]
  · simp only [h]
    simpa [cpuRequestDrift] using h

theorem labelsDrift_corrected (gp : MultiClusterHub → String)
    (mv : Quantity → Int) (m : MultiClusterHub)
    (o : GoMap String) (e d : Deployment) (c : Container) (cs : List Container) :
    labelsDrift e (correctedDeployment gp mv m o e d c cs) = false := by
  simp only [labelsDrift, AddDeploymentLabels_changed, correctedDeployment,
    AddDeploymentLabels_labels]
  by_cases h : ContainsMap d.Labels e.Labels = true
  · simp [h]
  · simp [h, ContainsMap_mergeLabels]

theorem podLabelsDrift_corrected (gp : MultiClusterHub → String)
    (mv : Quantity → Int) (m : MultiClusterHub)
    (o : GoMap String) (e d : Deployment) (c : Container) (cs : List Container) :
    podLabelsDrift e (correctedDeployment gp mv m o e d c cs) = false := by
  simp only [podLabelsDrift, AddPodLabels_changed, correctedDeployment,
    AddPodLabels_labels]
  by_cases h : ContainsMap d.Spec.Template.Labels e.Spec.Template.Labels = true
  · simp [h]
  · simp [h, ContainsMap_mergeLabels]

/-- None of the thirteen checks fires on the corrected deployment. -/
theorem anyDrift_corrected (gp : MultiClusterHub → String)
    (mv : Quantity → Int) (m : MultiClusterHub)
    (o : GoMap String) (e d : Deployment) (c : Container) (cs : List Container) :
    anyDrift gp mv m o e (correctedDeployment gp mv m o e d c cs)
      (correctedContainer gp mv m o e c) (getReplicaCount m) = false := by
  have h6 := labelsDrift_corrected gp mv m o e d c cs
  have h7 := podLabelsDrift_corrected gp mv m o e d c cs
  have h12 := cpuRequestDrift_corrected gp mv m o e c
  unfold anyDrift
  rw [h6, h7, h12]
  simp only [correctedDeployment, pullSecretMissing_corrected, nodeSelectorDrift_corrected,
    tolerationsDrift_corrected, volumesDrift_corrected]
  simp [imageDrift, pullPolicyDrift, replicasDrift, argsDrift, envDrift, volumeMountsDrift,
    correctedContainer]

/-- When none of the thirteen checks fires, the corrected deployment is the current one. -/
theorem correctedDeployment_of_no_drift (gp : MultiClusterHub → String)
    (mv : Quantity → Int)
    (m : MultiClusterHub) (o : GoMap String) (e d : Deployment) (c : Container)
    (cs : List Container) (r : Int)
    (hc : d.Spec.Template.Spec.Containers = c :: cs) (hr : d.Spec.Replicas = some r)
    (h : anyDrift gp mv m o e d c r = false) : correctedDeployment gp mv m o e d c cs = d := by
  obtain ⟨n, ns, l, ⟨rep, sel, ⟨tl, ⟨vols, conts, nsel, sa, ips, tol⟩⟩⟩⟩ := d
  obtain ⟨cn, ci, cc, ca, cenv, ⟨lim, req⟩, cvm, cpp⟩ := c
  simp only at hc hr
  subst hc hr
  simp only [anyDrift, Bool.or_eq_false_iff, pullSecretMissing, imageDrift, pullPolicyDrift,
    nodeSelectorDrift, replicasDrift, labelsDrift, podLabelsDrift, argsDrift, envDrift,
    tolerationsDrift, volumeMountsDrift, cpuRequestDrift, volumesDrift,
    AddDeploymentLabels_changed, AddPodLabels_changed, decide_eq_false_iff_not, not_not,
    Bool.not_eq_false_eq_eq_true, Bool.not_eq_false] at h
  obtain ⟨⟨⟨⟨⟨⟨⟨⟨⟨⟨⟨⟨h1, h2⟩, h3⟩, h4⟩, h5⟩, h6⟩, h7⟩, h8⟩, h9⟩, h10⟩, h11⟩, h12⟩, h13⟩ := h
  simp only [correctedDeployment, correctedPod, correctedContainer,
    AddDeploymentLabels_labels, AddPodLabels_labels, pullSecretMissing, nodeSelectorDrift,
    cpuRequestDrift, volumesDrift, h1, h4, h6, h7, h12, h13]
  simp [← h2, ← h3, ← h5, ← h8, ← h9, ← h10, ← h11]

/-! ## The claims -/

/-- Claim C1: idempotence of ValidateDeployment. For every pull policy lookup, desired
spec `m`, overrides map `o`, expected template `e` and current deployment `d` that has a
first container and a replica count, `ValidateDeployment m o e d` returns some `(d1, _)`,
and `ValidateDeployment m o e d1` returns with `needsUpdate = false`. -/
theorem ValidateDeployment_idempotent (gp : MultiClusterHub → String)
    (mv : Quantity → Int) (m : MultiClusterHub)
    (o : GoMap String) (e d : Deployment) (c : Container) (cs : List Container) (r : Int)
    (hc : d.Spec.Template.Spec.Containers = c :: cs) (hr : d.Spec.Replicas = some r) :
    ∃ d1 b, ValidateDeployment gp mv m o e d = some (d1, b) ∧
      ∃ d2, ValidateDeployment gp mv m o e d1 = some (d2, false) := by
  refine ⟨_, _, ValidateDeployment_eq gp mv m o e d c cs r hc hr, ?_⟩
  refine ⟨correctedDeployment gp mv m o e (correctedDeployment gp mv m o e d c cs)
    (correctedContainer gp mv m o e c) cs, ?_⟩
  rw [ValidateDeployment_eq gp mv m o e (correctedDeployment gp mv m o e d c cs)
    (correctedContainer gp mv m o e c) cs (getReplicaCount m) rfl rfl, anyDrift_corrected]

/-- Witness of C1 on the concrete live deployment. -/
theorem ValidateDeployment_idempotent_witness :
    exDeployment.Spec.Template.Spec.Containers = exContainer :: [exSidecar] ∧
    exDeployment.Spec.Replicas = some 3 ∧
    ∃ d1 b, ValidateDeployment exPolicy exMilliValue exHub exOverrides exExpected exDeployment
        = some (d1, b) ∧
      ∃ d2, ValidateDeployment exPolicy exMilliValue exHub exOverrides exExpected d1 = some (d2, false) :=
  ⟨rfl, rfl, ValidateDeployment_idempotent exPolicy exMilliValue exHub exOverrides exExpected exDeployment
    exContainer [exSidecar] 3 rfl rfl⟩

/-- Claim C2: for every input whose current deployment has a first container and a
replica count, if ValidateDeployment returns `needsUpdate = false` then the returned
deployment is equal to current; in particular, when none of the thirteen checks fires on
current, the result is current itself with `needsUpdate = false`. -/
theorem ValidateDeployment_unchanged_of_no_update (gp : MultiClusterHub → String)
    (mv : Quantity → Int)
    (m : MultiClusterHub) (o : GoMap String) (e d : Deployment) (c : Container)
    (cs : List Container) (r : Int)
    (hc : d.Spec.Template.Spec.Containers = c :: cs) (hr : d.Spec.Replicas = some r) :
    (∀ d1, ValidateDeployment gp mv m o e d = some (d1, false) → d1 = d) ∧
    (anyDrift gp mv m o e d c r = false → ValidateDeployment gp mv m o e d = some (d, false)) := by
  have key := ValidateDeployment_eq gp mv m o e d c cs r hc hr
  constructor
  · intro d1 h
    rw [key] at h
    simp only [Option.some.injEq, Prod.mk.injEq] at h
    rw [← h.1]
    exact correctedDeployment_of_no_drift gp mv m o e d c cs r hc hr h.2
  · intro h
    rw [key, h, correctedDeployment_of_no_drift gp mv m o e d c cs r hc hr h]

/-- Witness of C2 on the converged deployment, which is on policy. -/
theorem ValidateDeployment_unchanged_of_no_update_witness :
    exConverged.Spec.Template.Spec.Containers = exConvergedContainer :: [exSidecar] ∧
    exConverged.Spec.Replicas = some 2 ∧
    anyDrift exPolicy exMilliValue exHub exOverrides exExpected exConverged exConvergedContainer 2 = false ∧
    ValidateDeployment exPolicy exMilliValue exHub exOverrides exExpected exConverged
      = some (exConverged, false) :=
  ⟨rfl, rfl, by decide,
    (ValidateDeployment_unchanged_of_no_update exPolicy exMilliValue exHub exOverrides exExpected
      exConverged exConvergedContainer [exSidecar] 2 rfl rfl).2 (by decide)⟩

/-- Claim C3: no false negatives. For every milli-value reading `mv` (whatever the
library method computes, overflow and rounding included) and every input whose current
deployment has a first
container and a replica count, the flag returned by ValidateDeployment is the logical OR
of the thirteen drift checks evaluated on current (pull secret missing, image, pull
policy, node selector, replicas, deployment labels, pod labels, args, env, tolerations,
volume mounts, CPU request, volumes), and none of the thirteen checks fires on the
returned deployment: each managed field of the result satisfies its comparison rule. -/
theorem ValidateDeployment_needsUpdate_iff_drift (gp : MultiClusterHub → String)
    (mv : Quantity → Int)
    (m : MultiClusterHub) (o : GoMap String) (e d : Deployment) (c : Container)
    (cs : List Container) (r : Int)
    (hc : d.Spec.Template.Spec.Containers = c :: cs) (hr : d.Spec.Replicas = some r) :
    ∃ d1 c1 r1,
      ValidateDeployment gp mv m o e d = some (d1,
        pullSecretMissing m d.Spec.Template.Spec || imageDrift o c ||
        pullPolicyDrift gp m c || nodeSelectorDrift m d.Spec.Template.Spec ||
        replicasDrift m r || labelsDrift e d || podLabelsDrift e d || argsDrift e c ||
        envDrift e c || tolerationsDrift d.Spec.Template.Spec ||
        volumeMountsDrift e c || cpuRequestDrift mv e c ||
        volumesDrift e d.Spec.Template.Spec) ∧
      d1.Spec.Template.Spec.Containers = c1 :: cs ∧ d1.Spec.Replicas = some r1 ∧
      pullSecretMissing m d1.Spec.Template.Spec = false ∧ imageDrift o c1 = false ∧
      pullPolicyDrift gp m c1 = false ∧ nodeSelectorDrift m d1.Spec.Template.Spec = false ∧
      replicasDrift m r1 = false ∧ labelsDrift e d1 = false ∧ podLabelsDrift e d1 = false ∧
      argsDrift e c1 = false ∧ envDrift e c1 = false ∧
      tolerationsDrift d1.Spec.Template.Spec = false ∧ volumeMountsDrift e c1 = false ∧
      cpuRequestDrift mv e c1 = false ∧ volumesDrift e d1.Spec.Template.Spec = false := by
  refine ⟨correctedDeployment gp mv m o e d c cs, correctedContainer gp mv m o e c,
    getReplicaCount m, ValidateDeployment_eq gp mv m o e d c cs r hc hr, rfl, rfl, ?_⟩
  have h := anyDrift_corrected gp mv m o e d c cs
  simp only [anyDrift, Bool.or_eq_false_iff] at h
  obtain ⟨⟨⟨⟨⟨⟨⟨⟨⟨⟨⟨⟨h1, h2⟩, h3⟩, h4⟩, h5⟩, h6⟩, h7⟩, h8⟩, h9⟩, h10⟩, h11⟩, h12⟩, h13⟩ := h
  exact ⟨h1, h2, h3, h4, h5, h6, h7, h8, h9, h10, h11, h12, h13⟩

/-- Witness of C3 on the concrete live deployment. -/
theorem ValidateDeployment_needsUpdate_iff_drift_witness :
    exDeployment.Spec.Template.Spec.Containers = exContainer :: [exSidecar] ∧
    exDeployment.Spec.Replicas = some 3 ∧
    ∃ d1 c1 r1,
      ValidateDeployment exPolicy exMilliValue exHub exOverrides exExpected exDeployment = some (d1,
        pullSecretMissing exHub exDeployment.Spec.Template.Spec ||
        imageDrift exOverrides exContainer || pullPolicyDrift exPolicy exHub exContainer ||
        nodeSelectorDrift exHub exDeployment.Spec.Template.Spec ||
        replicasDrift exHub 3 || labelsDrift exExpected exDeployment ||
        podLabelsDrift exExpected exDeployment || argsDrift exExpected exContainer ||
        envDrift exExpected exContainer ||
        tolerationsDrift exDeployment.Spec.Template.Spec ||
        volumeMountsDrift exExpected exContainer || cpuRequestDrift exMilliValue exExpected exContainer ||
        volumesDrift exExpected exDeployment.Spec.Template.Spec) ∧
      d1.Spec.Template.Spec.Containers = c1 :: [exSidecar] ∧ d1.Spec.Replicas = some r1 ∧
      pullSecretMissing exHub d1.Spec.Template.Spec = false ∧
      imageDrift exOverrides c1 = false ∧ pullPolicyDrift exPolicy exHub c1 = false ∧
      nodeSelectorDrift exHub d1.Spec.Template.Spec = false ∧
      replicasDrift exHub r1 = false ∧ labelsDrift exExpected d1 = false ∧
      podLabelsDrift exExpected d1 = false ∧ argsDrift exExpected c1 = false ∧
      envDrift exExpected c1 = false ∧ tolerationsDrift d1.Spec.Template.Spec = false ∧
      volumeMountsDrift exExpected c1 = false ∧ cpuRequestDrift exMilliValue exExpected c1 = false ∧
      volumesDrift exExpected d1.Spec.Template.Spec = false :=
  ⟨rfl, rfl, ValidateDeployment_needsUpdate_iff_drift exPolicy exMilliValue exHub exOverrides exExpected
    exDeployment exContainer [exSidecar] 3 rfl rfl⟩

/-- Claim C4: image enforcement. For every input whose current deployment has a first
container and a replica count, the image of the first container of the deployment
returned by ValidateDeployment equals the entry of the overrides map under
`multicloud_manager` (the empty string when the key is absent), and `needsUpdate` is
true whenever the image of current's first container differs from that value. -/
theorem ValidateDeployment_image (gp : MultiClusterHub → String)
    (mv : Quantity → Int) (m : MultiClusterHub)
    (o : GoMap String) (e d : Deployment) (c : Container) (cs : List Container) (r : Int)
    (hc : d.Spec.Template.Spec.Containers = c :: cs) (hr : d.Spec.Replicas = some r) :
    ∃ d1 c1 b, ValidateDeployment gp mv m o e d = some (d1, b) ∧
      d1.Spec.Template.Spec.Containers = c1 :: cs ∧
      c1.Image = Image o ∧ Image o = (o.get "multicloud_manager").getD "" ∧
      (o.get "multicloud_manager" = none → c1.Image = "") ∧
      (c.Image ≠ (o.get "multicloud_manager").getD "" → b = true) := by
  refine ⟨correctedDeployment gp mv m o e d c cs, correctedContainer gp mv m o e c, _,
    ValidateDeployment_eq gp mv m o e d c cs r hc hr, rfl, rfl, rfl, ?_, ?_⟩
  · intro h
    simp [correctedContainer, Image, GoMap.index, ImageKey, h]
  · intro h
    have hi : imageDrift o c = true := by
      simpa [imageDrift, Image, GoMap.index, ImageKey] using h
    simp [anyDrift, hi]

/-- Witness of C4, the scenario of the specification: current image `old:v1` with
overrides mapping `multicloud_manager` to `new:v2` gives image `new:v2` and
`needsUpdate = true`. -/
theorem ValidateDeployment_image_witness :
    exDeployment.Spec.Template.Spec.Containers = exContainer :: [exSidecar] ∧
    exDeployment.Spec.Replicas = some 3 ∧ exContainer.Image = "old:v1" ∧
    exOverrides.get "multicloud_manager" = some "new:v2" ∧
    ∃ d1 c1, ValidateDeployment exPolicy exMilliValue exHub exOverrides exExpected exDeployment
        = some (d1, true) ∧
      d1.Spec.Template.Spec.Containers = c1 :: [exSidecar] ∧ c1.Image = "new:v2" := by
  obtain ⟨d1, c1, b, h1, h2, h3, h4, _, h6⟩ :=
    ValidateDeployment_image exPolicy exMilliValue exHub exOverrides exExpected exDeployment
      exContainer [exSidecar] 3 rfl rfl
  have hb : b = true := h6 (by decide)
  subst hb
  exact ⟨rfl, rfl, rfl, by decide, d1, c1, h1, h2, by rw [h3, h4]; decide⟩

/-- Claim C5: replica policy. `getReplicaCount` returns 1 when the availability tier is
Basic and 2 for every other tier value, and for every input whose current deployment has
a first container and a replica count, the replica count of the deployment returned by
ValidateDeployment equals `getReplicaCount m`, whatever the replica count of current. -/
theorem ValidateDeployment_replicas (gp : MultiClusterHub → String)
    (mv : Quantity → Int) (m : MultiClusterHub)
    (o : GoMap String) (e d : Deployment) (c : Container) (cs : List Container) (r : Int)
    (hc : d.Spec.Template.Spec.Containers = c :: cs) (hr : d.Spec.Replicas = some r) :
    (m.Spec.AvailabilityConfig = "Basic" → getReplicaCount m = 1) ∧
    (m.Spec.AvailabilityConfig ≠ "Basic" → getReplicaCount m = 2) ∧
    ∃ d1 b, ValidateDeployment gp mv m o e d = some (d1, b) ∧
      d1.Spec.Replicas = some (getReplicaCount m) := by
  refine ⟨fun h => by simp [getReplicaCount, HABasic, h],
    fun h => by simp [getReplicaCount, HABasic, h], _, _,
    ValidateDeployment_eq gp mv m o e d c cs r hc hr, rfl⟩

/-- Witness of C5: a high-availability hub brings three replicas to two. -/
theorem ValidateDeployment_replicas_witness :
    exDeployment.Spec.Template.Spec.Containers = exContainer :: [exSidecar] ∧
    exDeployment.Spec.Replicas = some 3 ∧ getReplicaCount exHub = 2 ∧
    ∃ d1 b, ValidateDeployment exPolicy exMilliValue exHub exOverrides exExpected exDeployment
        = some (d1, b) ∧ d1.Spec.Replicas = some 2 := by
  obtain ⟨_, h2, d1, b, h3, h4⟩ :=
    ValidateDeployment_replicas exPolicy exMilliValue exHub exOverrides exExpected exDeployment
      exContainer [exSidecar] 3 rfl rfl
  have h : getReplicaCount exHub = 2 := h2 (by decide)
  exact ⟨rfl, rfl, h, d1, b, h3, by rw [h4, h]⟩

/-- The labels written by the label comparators: expected entries win, the other
entries are those of current. -/
theorem merged_labels_spec (current labels : GoMap String) :
    (∀ k v, labels.get k = some v →
      (if ContainsMap current labels then current else mergeLabels current labels).get k
        = some v) ∧
    (∀ k, labels.get k = none →
      (if ContainsMap current labels then current else mergeLabels current labels).get k
        = current.get k) := by
  by_cases h : ContainsMap current labels = true
  · rw [if_pos h]
    exact ⟨(ContainsMap_iff _ _).mp h, fun _ _ => rfl⟩
  · rw [if_neg h]
    exact ⟨mergeLabels_get_expected current labels, mergeLabels_get_other current labels⟩

/-- Claim C6: label merge. For every input whose current deployment has a first container
and a replica count, the deployment-level labels (and likewise the pod-template labels)
of the deployment returned by ValidateDeployment are the current labels overridden by the
labels of the expected template: every expected key is present with the expected value,
and under every key that is not in the expected labels the result holds what current
holds, so a current label such as `foo=bar` survives unchanged. -/
theorem ValidateDeployment_labels (gp : MultiClusterHub → String)
    (mv : Quantity → Int) (m : MultiClusterHub)
    (o : GoMap String) (e d : Deployment) (c : Container) (cs : List Container) (r : Int)
    (hc : d.Spec.Template.Spec.Containers = c :: cs) (hr : d.Spec.Replicas = some r) :
    ∃ d1 b, ValidateDeployment gp mv m o e d = some (d1, b) ∧
      (∀ k v, e.Labels.get k = some v → d1.Labels.get k = some v) ∧
      (∀ k, e.Labels.get k = none → d1.Labels.get k = d.Labels.get k) ∧
      (∀ k v, e.Spec.Template.Labels.get k = some v →
        d1.Spec.Template.Labels.get k = some v) ∧
      (∀ k, e.Spec.Template.Labels.get k = none →
        d1.Spec.Template.Labels.get k = d.Spec.Template.Labels.get k) := by
  refine ⟨_, _, ValidateDeployment_eq gp mv m o e d c cs r hc hr, ?_⟩
  simp only [correctedDeployment, AddDeploymentLabels_labels, AddPodLabels_labels]
  exact ⟨(merged_labels_spec d.Labels e.Labels).1, (merged_labels_spec d.Labels e.Labels).2,
    (merged_labels_spec d.Spec.Template.Labels e.Spec.Template.Labels).1,
    (merged_labels_spec d.Spec.Template.Labels e.Spec.Template.Labels).2⟩

/-- Witness of C6: the stale `app` label is overridden and the label `foo=bar`, which is
not among the expected labels, survives. -/
theorem ValidateDeployment_labels_witness :
    exDeployment.Spec.Template.Spec.Containers = exContainer :: [exSidecar] ∧
    exDeployment.Spec.Replicas = some 3 ∧
    exDeployment.Labels.get "foo" = some "bar" ∧ exExpected.Labels.get "foo" = none ∧
    ∃ d1 b, ValidateDeployment exPolicy exMilliValue exHub exOverrides exExpected exDeployment
        = some (d1, b) ∧
      d1.Labels.get "app" = some "ocm-controller" ∧ d1.Labels.get "foo" = some "bar" := by
  obtain ⟨d1, b, h1, h2, h3, _, _⟩ :=
    ValidateDeployment_labels exPolicy exMilliValue exHub exOverrides exExpected exDeployment
      exContainer [exSidecar] 3 rfl rfl
  have hfoo : exDeployment.Labels.get "foo" = some "bar" := by decide
  exact ⟨rfl, rfl, hfoo, by decide, d1, b, h1, h2 "app" "ocm-controller" (by decide),
    (h3 "foo" (by decide)).trans hfoo⟩

/-- Claim C7: strict fields are fully overwritten. For every input whose current
deployment has a first container and a replica count, in the deployment returned by
ValidateDeployment the args, environment variables and volume mounts of the first
container are those that the expected template yields (those of its first container when
it has one), the pod tolerations equal `defaultTolerations`, and the pod volumes are
semantically equal to the volumes of the expected template; in particular an environment
variable of current that is not in expected is absent from the result. -/
theorem ValidateDeployment_strict_fields (gp : MultiClusterHub → String)
    (mv : Quantity → Int)
    (m : MultiClusterHub) (o : GoMap String) (e d : Deployment) (c : Container)
    (cs : List Container) (r : Int)
    (hc : d.Spec.Template.Spec.Containers = c :: cs) (hr : d.Spec.Replicas = some r) :
    ∃ d1 c1 b, ValidateDeployment gp mv m o e d = some (d1, b) ∧
      d1.Spec.Template.Spec.Containers = c1 :: cs ∧
      c1.Args = GetContainerArgs e ∧ c1.Env = GetContainerEnvVars e ∧
      c1.VolumeMounts = GetContainerVolumeMounts e ∧
      (∀ ec ecs, e.Spec.Template.Spec.Containers = ec :: ecs →
        c1.Args = ec.Args ∧ c1.Env = ec.Env ∧ c1.VolumeMounts = ec.VolumeMounts ∧
        ∀ x ∈ elems c.Env, x ∉ elems ec.Env → x ∉ elems c1.Env) ∧
      d1.Spec.Template.Spec.Tolerations = defaultTolerations ∧
      SemanticDeepEqual d1.Spec.Template.Spec.Volumes e.Spec.Template.Spec.Volumes
        = true := by
  refine ⟨correctedDeployment gp mv m o e d c cs, correctedContainer gp mv m o e c, _,
    ValidateDeployment_eq gp mv m o e d c cs r hc hr, rfl, rfl, rfl, rfl, ?_, rfl, ?_⟩
  · intro ec ecs he
    have ha : GetContainerArgs e = ec.Args := by simp [GetContainerArgs, he]
    have hv : GetContainerEnvVars e = ec.Env := by simp [GetContainerEnvVars, he]
    have hm : GetContainerVolumeMounts e = ec.VolumeMounts := by
      simp [GetContainerVolumeMounts, he]
    refine ⟨ha, hv, hm, ?_⟩
    intro x _ hx
    show x ∉ elems (GetContainerEnvVars e)
    rw [hv]
    exact hx
  · have h := volumesDrift_corrected m e d.Spec.Template.Spec
      (correctedContainer gp mv m o e c :: cs)
    simpa [volumesDrift] using h

/-- Witness of C7: the extra environment variable `DEBUG` of the live deployment is not
in the result. -/
theorem ValidateDeployment_strict_fields_witness :
    exDeployment.Spec.Template.Spec.Containers = exContainer :: [exSidecar] ∧
    exDeployment.Spec.Replicas = some 3 ∧
    ({ Name := "DEBUG", Value := "1", ValueFrom := none } : EnvVar) ∈ elems exContainer.Env ∧
    ∃ d1 c1 b, ValidateDeployment exPolicy exMilliValue exHub exOverrides exExpected exDeployment
        = some (d1, b) ∧
      d1.Spec.Template.Spec.Containers = c1 :: [exSidecar] ∧
      c1.Args = exExpectedContainer.Args ∧ c1.Env = exExpectedContainer.Env ∧
      c1.VolumeMounts = exExpectedContainer.VolumeMounts ∧
      ({ Name := "DEBUG", Value := "1", ValueFrom := none } : EnvVar) ∉ elems c1.Env ∧
      d1.Spec.Template.Spec.Tolerations = defaultTolerations ∧
      SemanticDeepEqual d1.Spec.Template.Spec.Volumes exExpectedVolumes = true := by
  obtain ⟨d1, c1, b, h1, h2, _, _, _, h6, h7, h8⟩ :=
    ValidateDeployment_strict_fields exPolicy exMilliValue exHub exOverrides exExpected exDeployment
      exContainer [exSidecar] 3 rfl rfl
  obtain ⟨ha, hv, hm, hx⟩ := h6 exExpectedContainer [] rfl
  exact ⟨rfl, rfl, by decide, d1, c1, b, h1, h2, ha, hv, hm,
    hx _ (by decide) (by decide), h7, h8⟩

/-- Claim C8: image pull secret. For every input whose current deployment has a first
container and a replica count: if the pull secret name of the desired spec is empty, the
pull secret list returned by ValidateDeployment equals that of current; otherwise the
returned list contains a reference with that name, the list of current is an initial
segment of it, and it is longer than the list of current by exactly one when the name was
absent and by zero when it was already present. -/
theorem ValidateDeployment_pull_secrets (gp : MultiClusterHub → String)
    (mv : Quantity → Int)
    (m : MultiClusterHub) (o : GoMap String) (e d : Deployment) (c : Container)
    (cs : List Container) (r : Int)
    (hc : d.Spec.Template.Spec.Containers = c :: cs) (hr : d.Spec.Replicas = some r) :
    ∃ d1 b, ValidateDeployment gp mv m o e d = some (d1, b) ∧
      (m.Spec.ImagePullSecret = "" →
        d1.Spec.Template.Spec.ImagePullSecrets = d.Spec.Template.Spec.ImagePullSecrets) ∧
      (m.Spec.ImagePullSecret ≠ "" →
        (∃ ref ∈ elems d1.Spec.Template.Spec.ImagePullSecrets,
          ref.Name = m.Spec.ImagePullSecret) ∧
        elems d.Spec.Template.Spec.ImagePullSecrets
          <+: elems d1.Spec.Template.Spec.ImagePullSecrets ∧
        ((∀ ref ∈ elems d.Spec.Template.Spec.ImagePullSecrets,
            ref.Name ≠ m.Spec.ImagePullSecret) →
          (elems d1.Spec.Template.Spec.ImagePullSecrets).length
            = (elems d.Spec.Template.Spec.ImagePullSecrets).length + 1) ∧
        ((∃ ref ∈ elems d.Spec.Template.Spec.ImagePullSecrets,
            ref.Name = m.Spec.ImagePullSecret) →
          (elems d1.Spec.Template.Spec.ImagePullSecrets).length
            = (elems d.Spec.Template.Spec.ImagePullSecrets).length)) := by
  refine ⟨_, _, ValidateDeployment_eq gp mv m o e d c cs r hc hr, ?_, ?_⟩
  · intro h
    simp [correctedDeployment, correctedPod, pullSecretMissing, h]
  · intro h
    have hmem : ∀ l : List LocalObjectReference,
        ({ Name := m.Spec.ImagePullSecret } : LocalObjectReference) ∈ l ↔
          ∃ ref ∈ l, ref.Name = m.Spec.ImagePullSecret := by
      intro l
      constructor
      · intro hx
        exact ⟨_, hx, rfl⟩
      · rintro ⟨⟨n⟩, hx, hn⟩
        simp only at hn
        subst hn
        exact hx
    by_cases hp : ({ Name := m.Spec.ImagePullSecret } : LocalObjectReference)
        ∈ elems d.Spec.Template.Spec.ImagePullSecrets
    · have hd : pullSecretMissing m d.Spec.Template.Spec = false := by
        simp [pullSecretMissing, ContainsPullSecret, hp]
      simp only [correctedDeployment, correctedPod, hd]
      refine ⟨(hmem _).mp hp, List.prefix_refl _, fun hn => ?_, fun _ => rfl⟩
      obtain ⟨ref, hx, hn2⟩ := (hmem _).mp hp
      exact absurd hn2 (hn ref hx)
    · have hd : pullSecretMissing m d.Spec.Template.Spec = true := by
        simp [pullSecretMissing, ContainsPullSecret, hp, h]
      simp only [correctedDeployment, correctedPod, hd, if_true]
      refine ⟨⟨{ Name := m.Spec.ImagePullSecret }, by simp [goAppend, elems], rfl⟩,
        by simp [goAppend, elems], fun _ => by simp [goAppend, elems], fun hq => ?_⟩
      exact absurd ((hmem _).mpr hq) hp

/-- Witness of C8: the secret `quay` is appended after the secret `internal`. -/
theorem ValidateDeployment_pull_secrets_witness :
    exDeployment.Spec.Template.Spec.Containers = exContainer :: [exSidecar] ∧
    exDeployment.Spec.Replicas = some 3 ∧ exHub.Spec.ImagePullSecret = "quay" ∧
    exDeployment.Spec.Template.Spec.ImagePullSecrets = some [{ Name := "internal" }] ∧
    ∃ d1 b, ValidateDeployment exPolicy exMilliValue exHub exOverrides exExpected exDeployment
        = some (d1, b) ∧
      (∃ ref ∈ elems d1.Spec.Template.Spec.ImagePullSecrets, ref.Name = "quay") ∧
      [({ Name := "internal" } : LocalObjectReference)]
        <+: elems d1.Spec.Template.Spec.ImagePullSecrets ∧
      (elems d1.Spec.Template.Spec.ImagePullSecrets).length = 2 := by
  obtain ⟨d1, b, h1, _, h3⟩ :=
    ValidateDeployment_pull_secrets exPolicy exMilliValue exHub exOverrides exExpected exDeployment
      exContainer [exSidecar] 3 rfl rfl
  obtain ⟨h4, h5, h6, _⟩ := h3 (by decide)
  exact ⟨rfl, rfl, rfl, rfl, d1, b, h1, h4, h5, h6 (by decide)⟩

/-- Claim C9: node selector. For every input whose current deployment has a first
container and a replica count: if every key/value of the desired node selector is present
in the node selector of current, ValidateDeployment leaves the node selector equal to
that of current and the flag is the disjunction of the twelve other checks alone;
otherwise the returned node selector is exactly the desired selector and `needsUpdate`
is true. -/
theorem ValidateDeployment_node_selector (gp : MultiClusterHub → String)
    (mv : Quantity → Int)
    (m : MultiClusterHub) (o : GoMap String) (e d : Deployment) (c : Container)
    (cs : List Container) (r : Int)
    (hc : d.Spec.Template.Spec.Containers = c :: cs) (hr : d.Spec.Replicas = some r) :
    ∃ d1 b, ValidateDeployment gp mv m o e d = some (d1, b) ∧
      ((∀ k v, m.Spec.NodeSelector.get k = some v →
          d.Spec.Template.Spec.NodeSelector.get k = some v) →
        d1.Spec.Template.Spec.NodeSelector = d.Spec.Template.Spec.NodeSelector ∧
        nodeSelectorDrift m d.Spec.Template.Spec = false ∧
        b = (pullSecretMissing m d.Spec.Template.Spec || imageDrift o c ||
          pullPolicyDrift gp m c || replicasDrift m r || labelsDrift e d ||
          podLabelsDrift e d || argsDrift e c || envDrift e c ||
          tolerationsDrift d.Spec.Template.Spec || volumeMountsDrift e c ||
          cpuRequestDrift mv e c || volumesDrift e d.Spec.Template.Spec)) ∧
      (¬ (∀ k v, m.Spec.NodeSelector.get k = some v →
          d.Spec.Template.Spec.NodeSelector.get k = some v) →
        d1.Spec.Template.Spec.NodeSelector = m.Spec.NodeSelector ∧ b = true) := by
  refine ⟨_, _, ValidateDeployment_eq gp mv m o e d c cs r hc hr, ?_, ?_⟩
  · intro h
    have hd : nodeSelectorDrift m d.Spec.Template.Spec = false := by
      simp [nodeSelectorDrift, (ContainsMap_iff _ _).mpr h]
    refine ⟨by simp [correctedDeployment, correctedPod, hd], hd, ?_⟩
    simp [anyDrift, hd]
  · intro h
    have hd : nodeSelectorDrift m d.Spec.Template.Spec = true := by
      have hn : ¬ ContainsMap d.Spec.Template.Spec.NodeSelector m.Spec.NodeSelector = true :=
        fun hcm => h ((ContainsMap_iff _ _).mp hcm)
      simpa [nodeSelectorDrift] using hn
    exact ⟨by simp [correctedDeployment, correctedPod, hd], by simp [anyDrift, hd]⟩

/-- Witness of C9: the desired entry `disk=ssd` is not in the node selector `zone=a` of
the live deployment, so the result holds the desired selector and an update is needed. -/
theorem ValidateDeployment_node_selector_witness :
    exDeployment.Spec.Template.Spec.Containers = exContainer :: [exSidecar] ∧
    exDeployment.Spec.Replicas = some 3 ∧
    exHub.Spec.NodeSelector.get "disk" = some "ssd" ∧
    exDeployment.Spec.Template.Spec.NodeSelector.get "disk" = none ∧
    ∃ d1, ValidateDeployment exPolicy exMilliValue exHub exOverrides exExpected exDeployment
        = some (d1, true) ∧
      d1.Spec.Template.Spec.NodeSelector = exHub.Spec.NodeSelector := by
  obtain ⟨d1, b, h1, _, h3⟩ :=
    ValidateDeployment_node_selector exPolicy exMilliValue exHub exOverrides exExpected exDeployment
      exContainer [exSidecar] 3 rfl rfl
  have hno : ¬ (∀ k v, exHub.Spec.NodeSelector.get k = some v →
      exDeployment.Spec.Template.Spec.NodeSelector.get k = some v) := by
    intro h
    exact absurd (h "disk" "ssd" (by decide)) (by decide)
  obtain ⟨h4, h5⟩ := h3 hno
  subst h5
  exact ⟨rfl, rfl, by decide, by decide, d1, h1, h4⟩

/-- Counterexample to C10 as stated: the live deployment carries the node selector entry
`zone=a`, the desired selector is `disk=ssd`, and the returned deployment has no entry
under `zone`. -/
theorem node_selector_entry_dropped :
    exDeployment.Spec.Template.Spec.Containers = exContainer :: [exSidecar] ∧
    exDeployment.Spec.Replicas = some 3 ∧
    ValidateDeployment exPolicy exMilliValue exHub exOverrides exExpected exDeployment
      = some (exConverged, true) ∧
    exDeployment.Spec.Template.Spec.NodeSelector.get "zone" = some "a" ∧
    exConverged.Spec.Template.Spec.NodeSelector.get "zone" = none := by
  refine ⟨rfl, rfl, ?_, ?_, ?_⟩ <;> decide

/-- Claim C10, amended: for every input whose current deployment has a first container
and a replica count, an entry of the node selector of current is still present in the
node selector of the deployment returned by ValidateDeployment exactly when every
key/value of the desired selector is present in the selector of current (the selector is
then left as it is) or the desired selector holds that same entry (the selector is then
replaced by the desired one). -/
theorem ValidateDeployment_node_selector_entries (gp : MultiClusterHub → String)
    (mv : Quantity → Int)
    (m : MultiClusterHub) (o : GoMap String) (e d : Deployment) (c : Container)
    (cs : List Container) (r : Int)
    (hc : d.Spec.Template.Spec.Containers = c :: cs) (hr : d.Spec.Replicas = some r) :
    ∃ d1 b, ValidateDeployment gp mv m o e d = some (d1, b) ∧
      ∀ k v, d.Spec.Template.Spec.NodeSelector.get k = some v →
        (d1.Spec.Template.Spec.NodeSelector.get k = some v ↔
          ((∀ k2 v2, m.Spec.NodeSelector.get k2 = some v2 →
              d.Spec.Template.Spec.NodeSelector.get k2 = some v2) ∨
            m.Spec.NodeSelector.get k = some v)) := by
  refine ⟨_, _, ValidateDeployment_eq gp mv m o e d c cs r hc hr, ?_⟩
  intro k v hk
  by_cases h : ContainsMap d.Spec.Template.Spec.NodeSelector m.Spec.NodeSelector = true
  · have hd : nodeSelectorDrift m d.Spec.Template.Spec = false := by
      simp [nodeSelectorDrift, h]
    simp only [correctedDeployment, correctedPod, hd]
    exact ⟨fun _ => Or.inl ((ContainsMap_iff _ _).mp h), fun _ => hk⟩
  · have hd : nodeSelectorDrift m d.Spec.Template.Spec = true := by
      simpa [nodeSelectorDrift] using h
    simp only [correctedDeployment, correctedPod, hd, if_true]
    constructor
    · exact fun hm => Or.inr hm
    · rintro (hall | hm)
      · exact absurd ((ContainsMap_iff _ _).mpr hall) h
      · exact hm

/-- Witness of the amended C10 on the converged deployment, whose node selector holds the
desired entry `disk=ssd`: the entry is still present in the result. -/
theorem ValidateDeployment_node_selector_entries_witness :
    exConverged.Spec.Template.Spec.Containers = exConvergedContainer :: [exSidecar] ∧
    exConverged.Spec.Replicas = some 2 ∧
    exConverged.Spec.Template.Spec.NodeSelector.get "disk" = some "ssd" ∧
    ∃ d1 b, ValidateDeployment exPolicy exMilliValue exHub exOverrides exExpected exConverged
        = some (d1, b) ∧
      d1.Spec.Template.Spec.NodeSelector.get "disk" = some "ssd" := by
  obtain ⟨d1, b, h1, h2⟩ :=
    ValidateDeployment_node_selector_entries exPolicy exMilliValue exHub exOverrides exExpected
      exConverged exConvergedContainer [exSidecar] 2 rfl rfl
  exact ⟨rfl, rfl, by decide, d1, b, h1,
    (h2 "disk" "ssd" (by decide)).mpr (Or.inr (by decide))⟩

/-- Counterexample to C11 as stated: the live deployment with its two containers and a
nil replica pointer makes ValidateDeployment fail, although its pod template has
containers. -/
theorem ValidateDeployment_fails_without_replicas :
    exNoReplicas.Spec.Template.Spec.Containers = exContainer :: [exSidecar] ∧
    exNoReplicas.Spec.Replicas = none ∧
    ValidateDeployment exPolicy exMilliValue exHub exOverrides exExpected exNoReplicas = none := by
  refine ⟨rfl, rfl, ?_⟩
  decide

/-- Claim C11, amended: for every pull policy lookup, milli-value reading, desired spec,
overrides map and expected template that is built (it has its container),
ValidateDeployment fails, returning no result, if and only if the pod template of
current has no containers or the replica count of current is not set; it returns a
result if and only if current has at least one container and a replica count. What the
helpers of `pkg/utils` do on an expected template without containers is not specified,
and the theorem says nothing of it. -/
theorem ValidateDeployment_fails_iff (gp : MultiClusterHub → String)
    (mv : Quantity → Int) (m : MultiClusterHub)
    (o : GoMap String) (e d : Deployment) (ec : Container) (ecs : List Container)
    (he : e.Spec.Template.Spec.Containers = ec :: ecs) :
    (ValidateDeployment gp mv m o e d = none ↔
      (d.Spec.Template.Spec.Containers = [] ∨ d.Spec.Replicas = none)) ∧
    ((∃ d1 b, ValidateDeployment gp mv m o e d = some (d1, b)) ↔
      (d.Spec.Template.Spec.Containers ≠ [] ∧ d.Spec.Replicas ≠ none)) := by
  have hargs : GetContainerArgs e = ec.Args := by simp [GetContainerArgs, he]
  cases hc : d.Spec.Template.Spec.Containers with
  | nil =>
    have h : ValidateDeployment gp mv m o e d = none := by
      simp [ValidateDeployment, Deployment.DeepCopy, hc]
    simp [h]
  | cons c cs =>
    cases hr : d.Spec.Replicas with
    | none =>
      have h : ValidateDeployment gp mv m o e d = none := by
        simp [ValidateDeployment, Deployment.DeepCopy, hc, hr]
      simp [h]
    | some r =>
      have h := ValidateDeployment_eq gp mv m o e d c cs r hc hr
      simp only [correctedDeployment, correctedContainer, hargs] at h
      simp [h]

/-- Witness of the amended C11: against the built expected template, the live deployment
with its containers and replica count gets a result, and the same deployment without a
replica count gets none. -/
theorem ValidateDeployment_fails_iff_witness :
    exExpected.Spec.Template.Spec.Containers = exExpectedContainer :: [] ∧
    (∃ d1 b, ValidateDeployment exPolicy exMilliValue exHub exOverrides exExpected
        exDeployment = some (d1, b)) ∧
    ValidateDeployment exPolicy exMilliValue exHub exOverrides exExpected exNoReplicas
      = none :=
  ⟨rfl,
    (ValidateDeployment_fails_iff exPolicy exMilliValue exHub exOverrides exExpected
      exDeployment exExpectedContainer [] rfl).2.mpr ⟨by decide, by decide⟩,
    (ValidateDeployment_fails_iff exPolicy exMilliValue exHub exOverrides exExpected
      exNoReplicas exExpectedContainer [] rfl).1.mpr (Or.inr rfl)⟩

/-- Claim C12: frame. For every input whose current deployment has a first container and
a replica count, every part of current that no check governs is identical in the
deployment returned by ValidateDeployment: the containers after the first, the name,
command and resource limits of the first container, the name, namespace, label selector
and service account of the deployment; putting the governed fields of current back into
the result gives current itself. -/
theorem ValidateDeployment_frame (gp : MultiClusterHub → String)
    (mv : Quantity → Int) (m : MultiClusterHub)
    (o : GoMap String) (e d : Deployment) (c : Container) (cs : List Container) (r : Int)
    (hc : d.Spec.Template.Spec.Containers = c :: cs) (hr : d.Spec.Replicas = some r) :
    ∃ d1 c1 b, ValidateDeployment gp mv m o e d = some (d1, b) ∧
      d1.Spec.Template.Spec.Containers = c1 :: cs ∧
      c1.Name = c.Name ∧ c1.Command = c.Command ∧
      c1.Resources.Limits = c.Resources.Limits ∧
      d1.Name = d.Name ∧ d1.Namespace = d.Namespace ∧
      d1.Spec.Selector = d.Spec.Selector ∧
      d1.Spec.Template.Spec.ServiceAccountName = d.Spec.Template.Spec.ServiceAccountName ∧
      ({ d1 with
          Labels := d.Labels
          Spec := { d1.Spec with
            Replicas := d.Spec.Replicas
            Template :=
              { Labels := d.Spec.Template.Labels
                Spec := { d1.Spec.Template.Spec with
                  ImagePullSecrets := d.Spec.Template.Spec.ImagePullSecrets
                  NodeSelector := d.Spec.Template.Spec.NodeSelector
                  Tolerations := d.Spec.Template.Spec.Tolerations
                  Volumes := d.Spec.Template.Spec.Volumes
                  Containers :=
                    { c1 with
                      Image := c.Image
                      ImagePullPolicy := c.ImagePullPolicy
                      Args := c.Args
                      Env := c.Env
                      VolumeMounts := c.VolumeMounts
                      Resources := { c1.Resources with Requests := c.Resources.Requests } }
                    :: cs } } } } : Deployment) = d := by
  refine ⟨correctedDeployment gp mv m o e d c cs, correctedContainer gp mv m o e c, _,
    ValidateDeployment_eq gp mv m o e d c cs r hc hr, rfl, rfl, rfl, rfl, rfl, rfl, rfl, rfl, ?_⟩
  obtain ⟨n, ns, l, ⟨rep, sel, ⟨tl, ⟨vols, conts, nsel, sa, ips, tol⟩⟩⟩⟩ := d
  obtain ⟨cn, ci, cc, ca, cenv, ⟨lim, req⟩, cvm, cpp⟩ := c
  simp only at hc hr
  subst hc hr
  simp [correctedDeployment, correctedPod, correctedContainer]

/-- Witness of C12 on the concrete live deployment: the second container, the name of
the first container and its memory limit are those of the live deployment. -/
theorem ValidateDeployment_frame_witness :
    exDeployment.Spec.Template.Spec.Containers = exContainer :: [exSidecar] ∧
    exDeployment.Spec.Replicas = some 3 ∧
    ∃ d1 c1 b, ValidateDeployment exPolicy exMilliValue exHub exOverrides exExpected exDeployment
        = some (d1, b) ∧
      d1.Spec.Template.Spec.Containers = c1 :: [exSidecar] ∧
      c1.Name = "ocm-controller" ∧
      c1.Resources.Limits = exContainer.Resources.Limits ∧
      d1.Name = "ocm-controller" ∧ d1.Namespace = "open-cluster-management" ∧
      d1.Spec.Selector = selectorLabels "ocm-controller" := by
  obtain ⟨d1, c1, b, h1, h2, h3, _, h5, h6, h7, h8, _, _⟩ :=
    ValidateDeployment_frame exPolicy exMilliValue exHub exOverrides exExpected exDeployment
      exContainer [exSidecar] 3 rfl rfl
  exact ⟨rfl, rfl, d1, c1, b, h1, h2, h3, h5, h6, h7, h8⟩

/-- Claim C14: default policy tables. For every app name `a`, `defaultLabels a` is a map
with exactly the two entries `app = a` and `ocm-antiaffinity-selector = a`,
`selectorLabels a` is a map with exactly the one entry `app = a`, and
`defaultTolerations` is the one-element list holding the toleration with effect
`NoSchedule`, key `node-role.kubernetes.io/infra` and operator `Exists`. -/
theorem default_policy_tables (a : String) :
    (∃ f, defaultLabels a = some f ∧ f.keys = {"app", "ocm-antiaffinity-selector"}) ∧
    (∀ k, (defaultLabels a).get k =
      if k = "app" ∨ k = "ocm-antiaffinity-selector" then some a else none) ∧
    (∃ f, selectorLabels a = some f ∧ f.keys = {"app"}) ∧
    (∀ k, (selectorLabels a).get k = if k = "app" then some a else none) ∧
    defaultTolerations = some [{ Key := "node-role.kubernetes.io/infra",
                                 Operator := "Exists", Value := "", Effect := "NoSchedule",
                                 TolerationSeconds := none }] := by
  have hs : ∀ (x k : String),
      Finmap.lookup k (Finmap.singleton x a : Finmap (fun _ : String => String))
        = if k = x then some a else none := by
    intro x k
    by_cases h : k = x
    · subst h
      simp [Finmap.lookup_singleton_eq]
    · rw [if_neg h]
      exact Finmap.lookup_eq_none.mpr (fun hm => h ((Finmap.mem_singleton k x a).mp hm))
  refine ⟨⟨_, rfl, ?_⟩, ?_, ⟨_, rfl, ?_⟩, ?_, rfl⟩
  · ext k
    simp [Finmap.mem_keys, Finmap.mem_insert, Finmap.mem_singleton]
  · intro k
    show Finmap.lookup k (Finmap.insert "app" a
      (Finmap.singleton "ocm-antiaffinity-selector" a :
        Finmap (fun _ : String => String))) = _
    by_cases h : k = "app"
    · subst h
      simp [Finmap.lookup_insert]
    · rw [Finmap.lookup_insert_of_ne _ h, hs]
      simp [h]
  · ext k
    simp [Finmap.mem_keys, Finmap.mem_singleton]
  · intro k
    exact hs "app" k

/-! ## Order of the checks -/

set_option maxHeartbeats 4000000 in
/-- Any two blocks of `ValidateDeployment` commute on the local variables. -/
theorem Check.run_comm (gp : MultiClusterHub → String)
    (mv : Quantity → Int) (m : MultiClusterHub)
    (o : GoMap String) (e : Deployment) (x y : Check) (s : ValidationState) :
    (x.run gp mv m o e s).bind (y.run gp mv m o e) = (y.run gp mv m o e s).bind (x.run gp mv m o e) := by
  obtain ⟨found, pod, container, b⟩ := s
  cases hrep : found.Spec.Replicas with
  | none =>
    cases x <;> cases y <;>
      simp [Check.run, hrep,
        verifyImagePullSecret_eq, verifyImage_eq, verifyImagePullPolicy_eq,
        verifyNodeSelectors_eq, addMissingLabels_eq, addMissingPodLabels_eq, enforceArgs_eq,
        enforceEnv_eq, enforceTolerations_eq, enforceVolumeMounts_eq,
        enforceResourceRequests_eq, enforceVolumes_eq, AddDeploymentLabels_labels,
        AddPodLabels_labels, labelsDrift, podLabelsDrift, AddDeploymentLabels_changed,
        AddPodLabels_changed, pullSecretMissing, nodeSelectorDrift, tolerationsDrift,
        volumesDrift, cpuRequestDrift, imageDrift, pullPolicyDrift, argsDrift, envDrift,
        volumeMountsDrift, replicasDrift, Bool.or_assoc, Bool.or_comm, Bool.or_left_comm]
  | some r =>
    cases x <;> cases y <;>
      simp [Check.run, hrep, verifyReplicaCount_eq,
        verifyImagePullSecret_eq, verifyImage_eq, verifyImagePullPolicy_eq,
        verifyNodeSelectors_eq, addMissingLabels_eq, addMissingPodLabels_eq, enforceArgs_eq,
        enforceEnv_eq, enforceTolerations_eq, enforceVolumeMounts_eq,
        enforceResourceRequests_eq, enforceVolumes_eq, AddDeploymentLabels_labels,
        AddPodLabels_labels, labelsDrift, podLabelsDrift, AddDeploymentLabels_changed,
        AddPodLabels_changed, pullSecretMissing, nodeSelectorDrift, tolerationsDrift,
        volumesDrift, cpuRequestDrift, imageDrift, pullPolicyDrift, argsDrift, envDrift,
        volumeMountsDrift, replicasDrift, Bool.or_assoc, Bool.or_comm, Bool.or_left_comm]

/-- Running the blocks in two orders that are permutations of each other gives the same
local variables. -/
theorem runChecks_perm (gp : MultiClusterHub → String)
    (mv : Quantity → Int) (m : MultiClusterHub)
    (o : GoMap String) (e : Deployment) {l₁ l₂ : List Check} (p : l₁.Perm l₂) :
    ∀ s, runChecks gp mv m o e l₁ s = runChecks gp mv m o e l₂ s := by
  induction p with
  | nil => intro s; rfl
  | cons x _ ih =>
    intro s
    simp only [runChecks]
    cases x.run gp mv m o e s with
    | none => rfl
    | some s1 => exact ih s1
  | swap x y l =>
    intro s
    simp only [runChecks, ← Option.bind_assoc]
    rw [Check.run_comm gp mv m o e y x s]
  | trans _ _ ih₁ ih₂ => intro s; rw [ih₁ s, ih₂ s]

/-- The function `ValidateDeployment` runs the thirteen blocks in the order of the source
on the local variables of line 90 and returns what they hold. -/
theorem ValidateDeployment_eq_runChecks (gp : MultiClusterHub → String)
    (mv : Quantity → Int)
    (m : MultiClusterHub) (o : GoMap String) (e d : Deployment) (c : Container)
    (cs : List Container) (hc : d.Spec.Template.Spec.Containers = c :: cs) :
    ValidateDeployment gp mv m o e d =
      (runChecks gp mv m o e sourceOrder (initialState d c)).map (fun s => returned s cs) := by
  unfold ValidateDeployment
  simp only [Deployment.DeepCopy, hc]
  cases hr : d.Spec.Replicas with
  | none =>
    simp [sourceOrder, runChecks, Check.run, initialState, Deployment.DeepCopy, hr]
  | some r =>
    simp [sourceOrder, runChecks, Check.run, initialState, Deployment.DeepCopy, hr, returned]

/-- Claim C15: the checks commute. For every input whose current deployment has a first
container and a replica count, running the thirteen blocks of ValidateDeployment in any
order (any permutation of the order of the source) ends without a panic, and the
deployment and the flag read from the local variables at the end are the ones that
ValidateDeployment returns. -/
theorem ValidateDeployment_order_irrelevant (gp : MultiClusterHub → String)
    (mv : Quantity → Int)
    (m : MultiClusterHub) (o : GoMap String) (e d : Deployment) (c : Container)
    (cs : List Container) (r : Int) (order : List Check)
    (hc : d.Spec.Template.Spec.Containers = c :: cs) (hr : d.Spec.Replicas = some r)
    (hp : order.Perm sourceOrder) :
    ∃ s, runChecks gp mv m o e order (initialState d c) = some s ∧
      ValidateDeployment gp mv m o e d = some (returned s cs) := by
  have h1 := ValidateDeployment_eq_runChecks gp mv m o e d c cs hc
  have h2 := ValidateDeployment_eq gp mv m o e d c cs r hc hr
  rw [runChecks_perm gp mv m o e hp]
  cases hs : runChecks gp mv m o e sourceOrder (initialState d c) with
  | none =>
    rw [h1, hs] at h2
    simp at h2
  | some s =>
    rw [hs] at h1
    exact ⟨s, rfl, h1⟩

/-- Witness of C15: the thirteen blocks run in the reverse of the order of the source on
the concrete live deployment. -/
theorem ValidateDeployment_order_irrelevant_witness :
    exDeployment.Spec.Template.Spec.Containers = exContainer :: [exSidecar] ∧
    exDeployment.Spec.Replicas = some 3 ∧
    sourceOrder.reverse.Perm sourceOrder ∧
    ∃ s, runChecks exPolicy exMilliValue exHub exOverrides exExpected sourceOrder.reverse
        (initialState exDeployment exContainer) = some s ∧
      ValidateDeployment exPolicy exMilliValue exHub exOverrides exExpected exDeployment
        = some (returned s [exSidecar]) :=
  ⟨rfl, rfl, List.reverse_perm _,
    ValidateDeployment_order_irrelevant exPolicy exMilliValue exHub exOverrides exExpected exDeployment
      exContainer [exSidecar] 3 sourceOrder.reverse rfl rfl (List.reverse_perm _)⟩

/-- Claim C16: resource requests are compared on CPU only. For every milli-value reading
`mv` (whatever the library method computes, overflow and rounding included) and every
input whose current deployment has a first container and a replica count: if the CPU
milli-value of the requests of the first container of current equals that of the
requests of the expected template, ValidateDeployment leaves the whole request set equal
to that of current, whatever its other entries, and the flag is the disjunction of the
twelve other checks alone; otherwise the whole request set is the expected one and
`needsUpdate` is true. The requests of the expected template are those of its first
container, and the limits of the first container of current are left as they are. -/
theorem ValidateDeployment_cpu_requests (gp : MultiClusterHub → String)
    (mv : Quantity → Int)
    (m : MultiClusterHub) (o : GoMap String) (e d : Deployment) (c : Container)
    (cs : List Container) (r : Int)
    (hc : d.Spec.Template.Spec.Containers = c :: cs) (hr : d.Spec.Replicas = some r) :
    ∃ d1 c1 b, ValidateDeployment gp mv m o e d = some (d1, b) ∧
      d1.Spec.Template.Spec.Containers = c1 :: cs ∧
      (mv (ResourceList.Cpu c.Resources.Requests)
          = mv (ResourceList.Cpu (GetContainerRequestResources e)) →
        c1.Resources.Requests = c.Resources.Requests ∧
        b = (pullSecretMissing m d.Spec.Template.Spec || imageDrift o c ||
          pullPolicyDrift gp m c || nodeSelectorDrift m d.Spec.Template.Spec ||
          replicasDrift m r || labelsDrift e d || podLabelsDrift e d || argsDrift e c ||
          envDrift e c || tolerationsDrift d.Spec.Template.Spec ||
          volumeMountsDrift e c || volumesDrift e d.Spec.Template.Spec)) ∧
      (mv (ResourceList.Cpu c.Resources.Requests)
          ≠ mv (ResourceList.Cpu (GetContainerRequestResources e)) →
        c1.Resources.Requests = GetContainerRequestResources e ∧ b = true) ∧
      (∀ ec ecs, e.Spec.Template.Spec.Containers = ec :: ecs →
        GetContainerRequestResources e = ec.Resources.Requests) ∧
      c1.Resources.Limits = c.Resources.Limits := by
  refine ⟨correctedDeployment gp mv m o e d c cs, correctedContainer gp mv m o e c, _,
    ValidateDeployment_eq gp mv m o e d c cs r hc hr, rfl, ?_, ?_, ?_, rfl⟩
  · intro h
    have hd : cpuRequestDrift mv e c = false := by simp [cpuRequestDrift, h]
    exact ⟨by simp [correctedContainer, hd], by simp [anyDrift, hd]⟩
  · intro h
    have hd : cpuRequestDrift mv e c = true := by simp [cpuRequestDrift, h]
    exact ⟨by simp [correctedContainer, hd], by simp [anyDrift, hd]⟩
  · intro ec ecs he
    simp [GetContainerRequestResources, he]

/-- Witness of C16: the first container requests the expected CPU and, beyond the
expected template, memory; the request set is left as it is, memory included, and no
update is needed. -/
theorem ValidateDeployment_cpu_requests_witness :
    exMemoryDeployment.Spec.Template.Spec.Containers = exMemoryContainer :: [exSidecar] ∧
    exMemoryDeployment.Spec.Replicas = some 2 ∧
    GoMap.get (GetContainerRequestResources exExpected) "memory" = none ∧
    ∃ d1 c1, ValidateDeployment exPolicy exMilliValue exHub exOverrides exExpected exMemoryDeployment
        = some (d1, false) ∧
      d1.Spec.Template.Spec.Containers = c1 :: [exSidecar] ∧
      GoMap.get c1.Resources.Requests "memory"
        = some { nano := 256000000000, Format := "BinarySI" } := by
  obtain ⟨d1, c1, b, h1, h2, h3, _, _⟩ :=
    ValidateDeployment_cpu_requests exPolicy exMilliValue exHub exOverrides exExpected
      exMemoryDeployment exMemoryContainer [exSidecar] 2 rfl rfl
  obtain ⟨h5, h6⟩ := h3 (by decide)
  have hb : b = false := h6.trans (by decide)
  subst hb
  exact ⟨rfl, rfl, by decide, d1, c1, h1, h2, by rw [h5]; decide⟩

/-- When the corrected deployment is the current one, none of the thirteen checks fires
on the current deployment. -/
theorem anyDrift_of_corrected_eq (gp : MultiClusterHub → String)
    (mv : Quantity → Int) (m : MultiClusterHub)
    (o : GoMap String) (e d : Deployment) (c : Container) (cs : List Container) (r : Int)
    (hc : d.Spec.Template.Spec.Containers = c :: cs) (hr : d.Spec.Replicas = some r)
    (h : correctedDeployment gp mv m o e d c cs = d) : anyDrift gp mv m o e d c r = false := by
  have hfix := anyDrift_corrected gp mv m o e d c cs
  rw [h] at hfix
  have hcc : correctedContainer gp mv m o e c = c := by
    have h2 := congrArg (fun x => x.Spec.Template.Spec.Containers) h
    simp only [correctedDeployment, correctedPod, hc] at h2
    exact (List.cons.inj h2).1
  have hrr : getReplicaCount m = r := by
    have h2 := congrArg (fun x => x.Spec.Replicas) h
    simp only [correctedDeployment, hr] at h2
    exact Option.some.inj h2
  rw [hcc, hrr] at hfix
  exact hfix

/-- Claim C17: no spurious updates. For every input whose current deployment has a first
container and a replica count, if ValidateDeployment returns `needsUpdate = true` then
the returned deployment is not equal to current: an update is never requested for an
unchanged object. -/
theorem ValidateDeployment_update_changes (gp : MultiClusterHub → String)
    (mv : Quantity → Int)
    (m : MultiClusterHub) (o : GoMap String) (e d : Deployment) (c : Container)
    (cs : List Container) (r : Int)
    (hc : d.Spec.Template.Spec.Containers = c :: cs) (hr : d.Spec.Replicas = some r)
    (d1 : Deployment) (h : ValidateDeployment gp mv m o e d = some (d1, true)) : d1 ≠ d := by
  rw [ValidateDeployment_eq gp mv m o e d c cs r hc hr] at h
  simp only [Option.some.injEq, Prod.mk.injEq] at h
  intro heq
  have hno := anyDrift_of_corrected_eq gp mv m o e d c cs r hc hr (h.1.trans heq)
  rw [hno] at h
  exact absurd h.2 (by decide)

/-- Witness of C17: the concrete live deployment needs an update, and the deployment
returned for it differs from it. -/
theorem ValidateDeployment_update_changes_witness :
    exDeployment.Spec.Template.Spec.Containers = exContainer :: [exSidecar] ∧
    exDeployment.Spec.Replicas = some 3 ∧
    ValidateDeployment exPolicy exMilliValue exHub exOverrides exExpected exDeployment
      = some (exConverged, true) ∧
    exConverged ≠ exDeployment :=
  ⟨rfl, rfl, by decide,
    ValidateDeployment_update_changes exPolicy exMilliValue exHub exOverrides exExpected exDeployment
      exContainer [exSidecar] 3 rfl rfl exConverged (by decide)⟩

/-- Claim C18: override noninterference. For every pull policy lookup, desired spec,
expected template and current deployment with a first container and a replica count, and
every two overrides maps that read the same under the key `multicloud_manager`,
ValidateDeployment returns the same deployment and the same flag for both; the entries
under `registration`, `work` and `placement` do not influence the result. -/
theorem ValidateDeployment_overrides_agree (gp : MultiClusterHub → String)
    (mv : Quantity → Int)
    (m : MultiClusterHub) (o1 o2 : GoMap String) (e d : Deployment) (c : Container)
    (cs : List Container) (r : Int)
    (hc : d.Spec.Template.Spec.Containers = c :: cs) (hr : d.Spec.Replicas = some r)
    (h : o1.index "multicloud_manager" = o2.index "multicloud_manager") :
    ∃ d1 b, ValidateDeployment gp mv m o1 e d = some (d1, b) ∧
      ValidateDeployment gp mv m o2 e d = some (d1, b) := by
  have hi : Image o1 = Image o2 := h
  refine ⟨_, _, ValidateDeployment_eq gp mv m o1 e d c cs r hc hr, ?_⟩
  rw [ValidateDeployment_eq gp mv m o2 e d c cs r hc hr]
  simp only [correctedDeployment, correctedContainer, anyDrift, imageDrift, hi]

/-- Witness of C18: an overrides map with the manager image only and one that also holds
registration, work and placement images give the same result. -/
theorem ValidateDeployment_overrides_agree_witness :
    exDeployment.Spec.Template.Spec.Containers = exContainer :: [exSidecar] ∧
    exDeployment.Spec.Replicas = some 3 ∧
    exOverrides.get "registration" = none ∧
    exOverridesAll.get "registration" = some "registration:v7" ∧
    exOverridesAll.get "work" = some "work:v7" ∧
    exOverridesAll.get "placement" = some "placement:v7" ∧
    ∃ d1 b, ValidateDeployment exPolicy exMilliValue exHub exOverrides exExpected exDeployment
        = some (d1, b) ∧
      ValidateDeployment exPolicy exMilliValue exHub exOverridesAll exExpected exDeployment
        = some (d1, b) :=
  ⟨rfl, rfl, by decide, by decide, by decide, by decide,
    ValidateDeployment_overrides_agree exPolicy exMilliValue exHub exOverrides exOverridesAll exExpected
      exDeployment exContainer [exSidecar] 3 rfl rfl (by decide)⟩

end Foundation
